import Mathlib

/-!
Verification of the owl video-surveillance control plane against its
natural-language specification.  Each section shallowly embeds one
subsystem of the Go source and proves (or refutes) the corresponding
spec claims.  Definitions come first, grouped by subsystem; all
theorems follow.
-/

namespace Owl

/-! ## PTZ command encoding (`src/pkg/gbs/ptz.go`) -/

/-- `PTZDirection` from `src/pkg/gbs/ptz.go` (constants 0–13). -/
inductive PTZDirection where
  | up | down | left | right
  | upLeft | upRight | downLeft | downRight
  | zoomIn | zoomOut
  | focusNear | focusFar
  | irisOpen | irisClose
  deriving DecidableEq, Repr

/-- `PTZInput` from `src/pkg/gbs/ptz.go` (the fields used to build the
command word; the channel handle is not part of the encoding). -/
structure PTZInput where
  direction : PTZDirection
  speed : Int
  horizontal : Int
  vertical : Int
  zoom : Int
  deriving Repr

/-- Byte 4 (the direction byte) of the PTZ control word, from the first
`switch in.Direction` of `PTZControl`. -/
def ptzDirectionByte : PTZDirection → Nat
  | .up => 0x08
  | .down => 0x04
  | .left => 0x02
  | .right => 0x01
  | .upLeft => 0x0A
  | .upRight => 0x09
  | .downLeft => 0x06
  | .downRight => 0x05
  | .zoomIn => 0x10
  | .zoomOut => 0x20
  | _ => 0x00

/-- Byte 5 of the control word: `in.Horizontal` when in (0,255], else
`in.Speed` when in (0,255], else 0 (from `PTZControl`). -/
def ptzHorizontalByte (i : PTZInput) : Nat :=
  if 0 < i.horizontal ∧ i.horizontal ≤ 255 then i.horizontal.toNat
  else if 0 < i.speed ∧ i.speed ≤ 255 then i.speed.toNat
  else 0

/-- Byte 6 of the control word: `in.Vertical` when in (0,255], else
`in.Speed` when in (0,255], else 0 (from `PTZControl`). -/
def ptzVerticalByte (i : PTZInput) : Nat :=
  if 0 < i.vertical ∧ i.vertical ≤ 255 then i.vertical.toNat
  else if 0 < i.speed ∧ i.speed ≤ 255 then i.speed.toNat
  else 0

/-- The low nibble of byte 7: `in.Zoom` when in (0,15], else `in.Speed`
when in (0,15], else 0, masked with 0x0F (from `PTZControl`). -/
def ptzZoomNibble (i : PTZInput) : Nat :=
  if 0 < i.zoom ∧ i.zoom ≤ 15 then i.zoom.toNat % 16
  else if 0 < i.speed ∧ i.speed ≤ 15 then i.speed.toNat % 16
  else 0

/-- Byte 7 of the control word, from the second `switch in.Direction`
of `PTZControl`: zoom/focus/iris selector in the high nibble, speed in
the low nibble. -/
def ptzByte7 (i : PTZInput) : Nat :=
  let zoom := ptzZoomNibble i
  match i.direction with
  | .zoomIn => (1 <<< 4) ||| zoom
  | .zoomOut => (2 <<< 4) ||| zoom
  | .focusNear => (4 <<< 4) ||| zoom
  | .focusFar => (8 <<< 4) ||| zoom
  | .irisOpen => (3 <<< 4) ||| zoom
  | .irisClose => (4 <<< 4) ||| zoom
  | _ => zoom

/-- The full 8-byte GB28181 control word built by `PTZControl`
(`src/pkg/gbs/ptz.go`, lines 84–153). -/
def ptzControlCmd (i : PTZInput) : List Nat :=
  [0xA5, 0x0F, 0x01, 0x00,
   ptzDirectionByte i.direction,
   ptzHorizontalByte i,
   ptzVerticalByte i,
   ptzByte7 i]

/-- Preset commands accepted by `PTZPresetControl`. -/
inductive PresetCommand where
  | setPreset | gotoPreset | removePreset
  deriving DecidableEq, Repr

/-- Byte 7 of the preset control word (from the `switch in.Command` of
`PTZPresetControl`). -/
def presetCommandByte : PresetCommand → Nat
  | .setPreset => 0x81
  | .gotoPreset => 0x82
  | .removePreset => 0x83

/-- The 8-byte preset control word built by `PTZPresetControl`
(`src/pkg/gbs/ptz.go`, lines 174–200); `none` when the preset id is
outside 1..255 (the function returns an error there). -/
def ptzPresetCmd (cmd : PresetCommand) (presetID : Int) : Option (List Nat) :=
  if presetID < 1 ∨ presetID > 255 then none
  else some [0xA5, 0x0F, 0x01, 0x00, 0x00, 0x00, presetID.toNat,
             presetCommandByte cmd]

/-! ## ZLM media-server driver setup (`src/internal/core/sms/driver_zlm.go`) -/

/-- The `MediaServer` fields consumed by `ZLMDriver.Setup`. -/
structure MediaServer where
  id : String
  ip : String
  secret : String
  rtpPortRange : String
  hookAliveInterval : Nat
  deriving Repr, DecidableEq

/-- The configuration request assembled by `ZLMDriver.Setup`.  The Go
struct `zlm.SetServerConfigRequest` lives in the `pkg/zlm` package,
which is not under `src/`; its field list here is modelled from the
spec's webhook-key enumeration and from the fields `Setup` assigns.
Fields `Setup` never touches (notably `hookOnRecordMp4`) default to
`none`, matching a zero-valued optional field in the Go struct. -/
structure SetServerConfigRequest where
  rtcExternIP : Option String := none
  generalMediaServerID : Option String := none
  hookEnable : Option String := none
  hookOnFlowReport : Option String := none
  hookOnPlay : Option String := none
  protocolEnableTs : Option String := none
  protocolEnableFmp4 : Option String := none
  protocolEnableHls : Option String := none
  protocolEnableHlsFmp4 : Option String := none
  hookOnPublish : Option String := none
  hookOnStreamNoneReader : Option String := none
  generalStreamNoneReaderDelayMS : Option String := none
  hookOnStreamNotFound : Option String := none
  hookOnRecordTs : Option String := none
  hookOnRecordMp4 : Option String := none
  hookOnRtspAuth : Option String := none
  hookOnRtspRealm : Option String := none
  hookOnShellLogin : Option String := none
  hookOnStreamChanged : Option String := none
  hookOnServerKeepalive : Option String := none
  hookOnServerStarted : Option String := none
  hookTimeoutSec : Option String := none
  hookAliveInterval : Option String := none
  protocolContinuePushMs : Option String := none
  rtpProxyPortRange : Option String := none
  ffmpegLog : Option String := none
  deriving Repr, DecidableEq

/-- The request built by `ZLMDriver.Setup`
(`src/internal/core/sms/driver_zlm.go`, lines 63–102). -/
def zlmSetupRequest (ms : MediaServer) (webhookURL : String) :
    SetServerConfigRequest where
  rtcExternIP := some ms.ip
  generalMediaServerID := some ms.id
  hookEnable := some "1"
  hookOnFlowReport := some ""
  hookOnPlay := some (webhookURL ++ "/on_play")
  protocolEnableTs := some "0"
  protocolEnableFmp4 := some "0"
  protocolEnableHls := some "0"
  protocolEnableHlsFmp4 := some "1"
  hookOnPublish := some (webhookURL ++ "/on_publish")
  hookOnStreamNoneReader := some (webhookURL ++ "/on_stream_none_reader")
  generalStreamNoneReaderDelayMS := some "30000"
  hookOnStreamNotFound := some (webhookURL ++ "/on_stream_not_found")
  hookOnRecordTs := some ""
  hookOnRtspAuth := some ""
  hookOnRtspRealm := some ""
  hookOnShellLogin := some ""
  hookOnStreamChanged := some (webhookURL ++ "/on_stream_changed")
  hookOnServerKeepalive := some (webhookURL ++ "/on_server_keepalive")
  hookTimeoutSec := some "20"
  hookAliveInterval := some (toString ms.hookAliveInterval)
  protocolContinuePushMs := some "3000"
  rtpProxyPortRange := some ms.rtpPortRange
  ffmpegLog := some "./fflogs/ffmpeg.log"

/-! ## RTMP publish authentication (`src/unnamed/part_007` = the
`rtmpadapter` package, and `src/internal/web/api/zlm_webhook.go`) -/

/-- The `StreamConfig` fields used by `Adapter.OnPublish`. -/
structure StreamConfig where
  isAuthDisabled : Bool := false
  pushedAt : Option Nat := none
  session : String := ""
  deriving DecidableEq, Repr

/-- The `Channel` fields used by `Adapter.OnPublish`. -/
structure RtmpChannel where
  id : String
  app : String
  stream : String
  isOnline : Bool := false
  config : StreamConfig := {}
  deriving DecidableEq, Repr

/-- The channel table as seen by the RTMP adapter. -/
structure RtmpState where
  channels : List RtmpChannel
  deriving DecidableEq, Repr

/-- Modelled from the spec: `ipc.Core.GetChannelByAppStreamOrID` (its
source file is not under `src/`; the adapter's comment says it resolves
a channel by app+stream, with the stream also accepted as a channel
id). -/
def getChannelByAppStreamOrID (s : RtmpState) (app stream : String) :
    Option RtmpChannel :=
  s.channels.find? fun c =>
    decide ((c.app = app ∧ c.stream = stream) ∨ c.id = stream)

/-- Modelled from the spec: `ipc.Core.EditChannelConfigAndOnline` (its
source file is not under `src/`): sets the channel's online flag and
applies the given mutation to its `StreamConfig`. -/
def editChannelConfigAndOnline (s : RtmpState) (id : String) (online : Bool)
    (f : StreamConfig → StreamConfig) : RtmpState :=
  { channels := s.channels.map fun c =>
      if c.id = id then { c with isOnline := online, config := f c.config }
      else c }

/-- `params[k]` with Go's zero-value semantics for a missing key. -/
def lookupParam (params : List (String × String)) (k : String) : String :=
  ((params.find? fun p => p.1 == k).map (·.2)).getD ""

/-- `Adapter.OnPublish` from `src/unnamed/part_007` (lines 70–100):
resolve the channel; accept unconditionally when auth is disabled;
otherwise compare `params["sign"]` with `MD5(RTMPSecret)` and on a
match stamp `pushed_at`/`session` and set the channel online.  `md5` is
the external `hook.MD5` helper, kept abstract. -/
def rtmpOnPublish (md5 : String → String) (rtmpSecret : String) (now : Nat)
    (s : RtmpState) (app stream : String) (params : List (String × String)) :
    Except String (Bool × RtmpState) :=
  match getChannelByAppStreamOrID s app stream with
  | none => .error "channel not found"
  | some ch =>
    if ch.config.isAuthDisabled then .ok (true, s)
    else if lookupParam params "sign" ≠ md5 rtmpSecret then .ok (false, s)
    else .ok (true, editChannelConfigAndOnline s ch.id true fun cfg =>
        { cfg with pushedAt := some now,
                   session := lookupParam params "session" })

/-- The webhook's reply envelope (`DefaultOutput`). -/
structure DefaultOutput where
  code : Int
  msg : String
  deriving DecidableEq, Repr

/-- `newDefaultOutputOK` (`{code:0, msg:"success"}`). -/
def newDefaultOutputOK : DefaultOutput := ⟨0, "success"⟩

/-- `WebHookAPI.onPublish` (`src/internal/web/api/zlm_webhook.go`,
lines 80–124), restricted to the case where `ipc.GetType` routed the
stream to the RTMP adapter (the claim's scope); the query-string
parsing is abstracted into the already-parsed `params` list. -/
def onPublishWebhookRTMP (md5 : String → String) (rtmpSecret : String)
    (now : Nat) (s : RtmpState) (app stream : String)
    (params : List (String × String)) : DefaultOutput × RtmpState :=
  match rtmpOnPublish md5 rtmpSecret now s app stream params with
  | .error e => (⟨1, e⟩, s)
  | .ok (false, s') => (⟨1, "鉴权失败"⟩, s')
  | .ok (true, s') => (newDefaultOutputOK, s')

/-! ## ONVIF health state machine
(`src/internal/adapter/onvifadapter/keepalive.go`) -/

/-- The in-memory ONVIF device fields read by `startStatusChecker`:
`KeepaliveAt` in Unix seconds (`0` encodes Go's zero time) and the
cached online flag. -/
structure OnvifDevice where
  keepaliveAt : Nat
  isOnline : Bool
  deriving DecidableEq, Repr

/-- `heartbeatTimeout` (70 seconds) from `startHealthCheck`. -/
def heartbeatTimeoutSec : Nat := 70

/-- One tick of `startStatusChecker` for one device: skip devices with
a zero keepalive time; recompute the online flag; write the new state
to the persistent store only when the flag flips (the returned `Bool`
records whether `syncDeviceStatusToDB` was called). -/
def checkDeviceStatus (now : Nat) (d : OnvifDevice) : OnvifDevice × Bool :=
  if d.keepaliveAt = 0 then (d, false)
  else
    let isOnline : Bool := decide (now - d.keepaliveAt < heartbeatTimeoutSec)
    if d.isOnline = isOnline then (d, false)
    else ({ d with isOnline := isOnline }, true)

/-- A run of the status checker over a list of observations
`(now, keepaliveAt)` — the keepalive timestamp may move between ticks
because the heartbeat task updates it concurrently.  Returns the final
device state and the number of DB writes performed. -/
def runStatusChecker (d : OnvifDevice) : List (Nat × Nat) → OnvifDevice × Nat
  | [] => (d, 0)
  | (now, ka) :: rest =>
    let step := checkDeviceStatus now { d with keepaliveAt := ka }
    let tail := runStatusChecker step.1 rest
    (tail.1, (if step.2 then 1 else 0) + tail.2)

/-- The online status the checker computes at one observation (the
previous status is kept when the keepalive time is zero). -/
def tickStatus (prev : Bool) (obs : Nat × Nat) : Bool :=
  if obs.2 = 0 then prev else decide (obs.1 - obs.2 < heartbeatTimeoutSec)

/-- The sequence of in-memory online flags along a run. -/
def statusTrace (b : Bool) : List (Nat × Nat) → List Bool
  | [] => []
  | o :: rest => tickStatus b o :: statusTrace (tickStatus b o) rest

/-- The number of boolean transitions in a status sequence starting
from `b`. -/
def countTransitions (b : Bool) : List Bool → Nat
  | [] => 0
  | x :: rest => (if x ≠ b then 1 else 0) + countTransitions x rest

/-! ## Device/channel store and the incremental catalog merge
(`src/unnamed/part_006` = the `ipc` package `Adapter`, and the catalog
emission callback of `NewGB28181API` in `src/pkg/gbs/register.go`) -/

/-- The `DeviceExt` fields written by the catalog merge. -/
structure DeviceExt where
  manufacturer : String := ""
  model : String := ""
  deriving DecidableEq, Repr

/-- The `ipc.Channel` fields used by `SaveChannels`. -/
structure IpcChannel where
  id : String := ""
  did : String := ""
  deviceID : String
  channelID : String
  name : String := ""
  isOnline : Bool := false
  ext : DeviceExt := {}
  deriving DecidableEq, Repr

/-- The `ipc.Device` fields used by `SaveChannels`. -/
structure IpcDevice where
  id : String
  deviceID : String
  channels : Nat := 0
  deriving DecidableEq, Repr

/-- The persistent store as seen by the `ipc.Adapter`: device and
channel tables plus the unique-id generator's counter (the `uniqueid`
core mints ids from a monotone counter). -/
structure IpcStore where
  devices : List IpcDevice
  channels : List IpcChannel
  nextID : Nat
  deriving DecidableEq, Repr

/-- `GenerateChannelID` (`uni.UniqueID(bz.IDPrefixGBChannel)`): the
prefix constant lives in the `bz` package (not under `src/`); only the
freshness of minted ids matters here. -/
def genChannelID (n : Nat) : String := "gbch" ++ Nat.repr n

/-- `Device().Edit(..., d.Channels = n, Where("device_id=?", id))`:
update the channel count of the device row with the given external
device id. -/
def editDeviceChannels (s : IpcStore) (deviceID : String) (n : Nat) :
    IpcStore :=
  { s with devices := s.devices.map fun d =>
      if d.deviceID = deviceID then { d with channels := n } else d }

/-- Go map indexing `existingMap[ch.ChannelID] = ch` built by iterating
the list in order: the *last* row with a given external channel id
wins. -/
def lookupLastByChannelID (l : List IpcChannel) (cid : String) :
    Option IpcChannel :=
  (l.filter fun c => decide (c.channelID = cid)).getLast?

/-- One iteration of `SaveChannels`' step-5 loop: update the row found
in `existingMap` (by its primary-key id), or insert the reported
channel with a freshly minted id and the device's internal id. -/
def saveChannelsStep (devRowID : String) (existing : List IpcChannel)
    (s : IpcStore) (ch : IpcChannel) : IpcStore :=
  match lookupLastByChannelID existing ch.channelID with
  | some ex =>
    { s with channels := s.channels.map fun c =>
        if c.id = ex.id then
          { c with name := ch.name, isOnline := ch.isOnline, ext := ch.ext }
        else c }
  | none =>
    { s with
      channels := s.channels ++
        [{ ch with id := genChannelID s.nextID, did := devRowID }],
      nextID := s.nextID + 1 }

/-- Step 5 of `SaveChannels`: fold the per-channel step over the
reported list. -/
def saveChannelsLoop (devRowID : String) (existing : List IpcChannel)
    (s : IpcStore) (channels : List IpcChannel) : IpcStore :=
  channels.foldl (saveChannelsStep devRowID existing) s

/-- Step 6 of `SaveChannels`: `BatchEdit("is_online", false)` on the
device's channels whose external id is not in the reported list. -/
def batchOffline (s : IpcStore) (deviceID : String)
    (currentIDs : List String) : IpcStore :=
  { s with channels := s.channels.map fun c =>
      if c.deviceID = deviceID ∧ c.channelID ∉ currentIDs then
        { c with isOnline := false }
      else c }

/-- `Adapter.SaveChannels` (`src/unnamed/part_006`, lines 113–188):
guard against an empty report, update the device's channel count,
fetch the device's existing channels, merge the report (update rows
present in both, insert new rows), offline-mark rows absent from the
report, and update the channel count again. -/
def saveChannels (s : IpcStore) (channels : List IpcChannel) : IpcStore :=
  match channels with
  | [] => s
  | ch0 :: _ =>
    let deviceID := ch0.deviceID
    let s1 := editDeviceChannels s deviceID channels.length
    let devRowID :=
      ((s1.devices.find? fun d => decide (d.deviceID = deviceID)).map
        (·.id)).getD ""
    let existing := s1.channels.filter fun c => decide (c.deviceID = deviceID)
    let currentIDs := channels.map (·.channelID)
    let s2 := saveChannelsLoop devRowID existing s1 channels
    let s3 := if currentIDs.isEmpty then s2
              else batchOffline s2 deviceID currentIDs
    editDeviceChannels s3 deviceID channels.length

/-- A channel reported in a GB28181 catalog chunk (the fields used by
the emission callback in `NewGB28181API`). -/
structure GbCatalogChannel where
  channelID : String
  name : String := ""
  status : String := ""
  manufacturer : String := ""
  model : String := ""
  deriving DecidableEq, Repr

/-- The `out[i]` conversion in the catalog emission callback
(`src/pkg/gbs/register.go`, lines 71–84). -/
def gbCatalogToIpc (deviceID : String) (ch : GbCatalogChannel) : IpcChannel :=
  { deviceID := deviceID,
    channelID := ch.channelID,
    name := ch.name,
    isOnline := ch.status = "OK" ∨ ch.status = "ON",
    ext := { manufacturer := ch.manufacturer, model := ch.model } }

/-- The catalog emission callback registered in `NewGB28181API`
(`src/pkg/gbs/register.go`, lines 45–88), restricted to its persistent
effect: a zero-channel emission is discarded before `SaveChannels` is
called (the returned flag records whether `SaveChannels` ran). -/
def catalogEmit (s : IpcStore) (deviceID : String)
    (channel : List GbCatalogChannel) : IpcStore × Bool :=
  if channel.length = 0 then (s, false)
  else (saveChannels s (channel.map (gbCatalogToIpc deviceID)), true)

/-- `SaveChannels` with every store call fallible: the schedule lists
the outcome of each database call in program order (`true` = the call
succeeds; on `false` the call has no effect).  The Go code discards
every error (`_ =`), so execution always continues — there is no
transaction and no rollback. -/
def saveChannelsFallible (s : IpcStore) (sched : List Bool)
    (channels : List IpcChannel) : IpcStore :=
  match channels with
  | [] => s
  | ch0 :: _ =>
    let deviceID := ch0.deviceID
    -- call 1: step-1 device edit
    let o1 := sched.getD 0 true
    let s1 := if o1 then editDeviceChannels s deviceID channels.length else s
    let devRowID :=
      ((s1.devices.find? fun d => decide (d.deviceID = deviceID)).map
        (·.id)).getD ""
    -- call 2: the Find of existing channels (on failure the slice stays nil)
    let o2 := sched.getD 1 true
    let existing := if o2 then
        s1.channels.filter fun c => decide (c.deviceID = deviceID)
      else []
    let currentIDs := channels.map (·.channelID)
    -- one call per reported channel (edit or add)
    let rec loop (t : IpcStore) (i : Nat) : List IpcChannel → IpcStore
      | [] => t
      | ch :: rest =>
        let ok := sched.getD i true
        let t' := if ok then saveChannelsStep devRowID existing t ch else t
        loop t' (i + 1) rest
    let s2 := loop s1 2 channels
    -- the BatchEdit call
    let o3 := sched.getD (2 + channels.length) true
    let s3 := if o3 ∧ ¬ currentIDs.isEmpty then
        batchOffline s2 deviceID currentIDs
      else s2
    -- the step-7 device edit
    let o4 := sched.getD (3 + channels.length) true
    if o4 then editDeviceChannels s3 deviceID channels.length else s3

/-- A reported channel `r` is correctly represented in store `t`: some
row carries the reported name, online flag and extension fields; the
row is the one `existingMap` designated when the external id was
already present, and carries an id unknown to the original store when
the row is new. -/
def GoodRow (devID : String) (orig E : List IpcChannel) (t : IpcStore)
    (r : IpcChannel) : Prop :=
  ∃ c ∈ t.channels, c.deviceID = devID ∧ c.channelID = r.channelID ∧
    c.name = r.name ∧ c.isOnline = r.isOnline ∧ c.ext = r.ext ∧
    (match lookupLastByChannelID E r.channelID with
     | some ex => c.id = ex.id
     | none => ∀ c0 ∈ orig, c.id ≠ c0.id)

/-! ## GB28181 registration (`src/pkg/gbs/register.go` and
`GetDeviceByDeviceID` from `src/unnamed/part_006`) -/

/-- The parsed contents of a SIP `Authorization` header, as extracted
by `sip.AuthFromValue` (the `sip` package is not under `src/`; the
handler reads `uri`, `nonce` and `response` from the client-supplied
header). -/
structure SipAuth where
  realm : String := ""
  nonce : String := ""
  uri : String := ""
  response : String := ""
  deriving DecidableEq, Repr

/-- The persistent device-row fields touched by `handlerRegister`. -/
structure RegDevice where
  id : String
  deviceID : String
  password : String := ""
  isOnline : Bool := false
  registeredAt : Nat := 0
  keepaliveAt : Nat := 0
  expires : Int := 0
  address : String := ""
  transport : String := ""
  gbVersion : String := ""
  deriving DecidableEq, Repr

/-- Registrar state: the persistent device table, the unique-id
counter, and the in-memory session map (`svr.memoryStorer`) keyed by
external device id. -/
structure RegState where
  store : List RegDevice
  nextID : Nat
  memory : List String
  deriving DecidableEq, Repr

/-- The data of one REGISTER request consumed by `handlerRegister`. -/
structure RegRequest where
  deviceID : String
  auth : Option SipAuth := none
  expiresHeader : String := ""
  source : String := ""
  transport : String := ""
  xGBVer : String := ""
  deriving DecidableEq, Repr

/-- The replies `handlerRegister` can produce. -/
inductive SipReply where
  | badRequest
  | challenge (realm nonce : String)
  | wrongPassword
  | ok
  deriving DecidableEq, Repr

/-- Modelled from the spec: `sip.RandString(n)` (the `sip` package is
not under `src/`) returns a fresh pseudo-random `n`-character string;
the generator's entropy is abstracted into `seed`. -/
def sipRandString (n seed : Nat) : String :=
  String.mk ((List.range n).map fun i => Char.ofNat (97 + (seed + i) % 26))

/-- `filterUnknowDevices` (`src/pkg/gbs/register.go`, lines 93–107):
length in [18, 20] and all characters numeric (`unicode.IsNumber`,
restricted here to ASCII digits). -/
def filterUnknowDevices (deviceID : String) : Bool :=
  decide (18 ≤ deviceID.length) && decide (deviceID.length ≤ 20) &&
    deviceID.toList.all Char.isDigit

/-- Modelled from the spec: `uni.UniqueID(bz.IDPrefixGB)` (the `bz`
prefix constant is not under `src/`); only freshness matters. -/
def genDeviceID (n : Nat) : String := "gb" ++ Nat.repr n

/-- `Adapter.GetDeviceByDeviceID` (`src/unnamed/part_006`, lines
45–58): fetch the device row by external id, auto-creating (and
persisting) an initialized row when none exists. -/
def getDeviceByDeviceID (s : RegState) (deviceID : String) :
    RegDevice × RegState :=
  match s.store.find? fun d => decide (d.deviceID = deviceID) with
  | some d => (d, s)
  | none =>
    let d : RegDevice := { id := genDeviceID s.nextID, deviceID := deviceID }
    (d, { s with store := s.store ++ [d], nextID := s.nextID + 1 })

/-- `memoryStorer.LoadOrStore`: allocate an in-memory session entry for
the device unless one already exists. -/
def loadOrStore (memory : List String) (deviceID : String) : List String :=
  if deviceID ∈ memory then memory else memory ++ [deviceID]

/-- The `memoryStorer.LoadOrStore` call of `handlerRegister` lifted to
the registrar state. -/
def allocSession (s : RegState) (deviceID : String) : RegState :=
  { s with memory := loadOrStore s.memory deviceID }

/-- The password-resolution logic of `handlerRegister` (lines 128–135):
the device's own password, falling back to the configured SIP password
when unset, with the sentinel `"#"` disabling authentication. -/
def resolvePassword (devPassword cfgPassword : String) : String :=
  if devPassword = "#" then ""
  else if devPassword = "" then cfgPassword
  else devPassword

/-- `strconv.Atoi` with the error discarded (`b.Expires, _ = ...`). -/
def parseExpires (s : String) : Int := (s.toInt?).getD 0

/-- Edit the device row with the given external id (the
`orm.Where("device_id=?", ...)` edits issued by `login`/`logout`). -/
def updateDeviceRow (s : RegState) (deviceID : String)
    (f : RegDevice → RegDevice) : RegState :=
  { s with store := s.store.map fun d =>
      if d.deviceID = deviceID then f d else d }

/-- The post-authentication tail of `handlerRegister` (lines 158–201):
`Expires: 0` marks the device offline (logout), otherwise the login
update stamps the online flag, registration/keepalive times, expiry,
address, transport and GB version; both paths reply `200 OK`. -/
def registerAfterAuth (s : RegState) (req : RegRequest) (now : Nat) :
    SipReply × RegState :=
  if req.expiresHeader = "0" then
    (.ok, updateDeviceRow s req.deviceID fun d =>
      { d with isOnline := false, address := req.source })
  else
    (.ok, updateDeviceRow s req.deviceID fun d =>
      { d with isOnline := true, registeredAt := now, keepaliveAt := now,
               expires := parseExpires req.expiresHeader,
               address := req.source, transport := req.transport,
               gbVersion := req.xGBVer })

/-- `handlerRegister` (`src/pkg/gbs/register.go`, lines 109–201): the
device-id gate, the auto-creating row fetch, the in-memory session
allocation, password resolution, the digest gate (challenge when no
`Authorization` header is present, 401 on a digest mismatch), and the
login/logout tail.  `calcResp` abstracts `Auth.CalcResponse` (the
`sip` package is not under `src/`): it computes the expected digest
from the parsed header, the username (the device's external id) and
the resolved password.  Note that no state records issued nonces. -/
def handlerRegister (calcResp : SipAuth → String → String → String)
    (cfgPassword domain : String) (seed now : Nat)
    (s : RegState) (req : RegRequest) : SipReply × RegState :=
  if filterUnknowDevices req.deviceID then
    if resolvePassword (getDeviceByDeviceID s req.deviceID).1.password
        cfgPassword = "" then
      registerAfterAuth
        (allocSession (getDeviceByDeviceID s req.deviceID).2 req.deviceID)
        req now
    else
      match req.auth with
      | none =>
        (.challenge domain (sipRandString 32 seed),
         allocSession (getDeviceByDeviceID s req.deviceID).2 req.deviceID)
      | some a =>
        if calcResp a (getDeviceByDeviceID s req.deviceID).1.deviceID
            (resolvePassword (getDeviceByDeviceID s req.deviceID).1.password
              cfgPassword) = a.response then
          registerAfterAuth
            (allocSession (getDeviceByDeviceID s req.deviceID).2 req.deviceID)
            req now
        else
          (.wrongPassword,
           allocSession (getDeviceByDeviceID s req.deviceID).2 req.deviceID)
  else (.badRequest, s)

/-- The password that authentication will be checked against for a
given external device id, as a function of the device table alone
(rows auto-created by `GetDeviceByDeviceID` carry an empty password). -/
def effectivePassword (store : List RegDevice) (cfg d : String) : String :=
  resolvePassword
    (((store.find? fun x => decide (x.deviceID = d)).map (·.password)).getD "")
    cfg

/-! ## Recording retention (`src/unnamed/part_004` = the `recording`
package cleanup worker) -/

/-- The `Recording` row fields used by the cleanup worker (times in
Unix seconds). -/
structure Recording where
  id : Nat
  startedAt : Nat
  createdAt : Nat
  size : Nat
  path : String
  deleteFlag : Bool := false
  deriving DecidableEq, Repr

/-- The recordings table together with the files on disk. -/
structure RecState where
  rows : List Recording
  files : List String
  deriving DecidableEq, Repr

/-- `batchSize` of `batchDeleteRecordings`. -/
def expiredBatchSize : Nat := 100

/-- `batchSize` of `cleanupByDiskUsage`. -/
def diskBatchSize : Nat := 50

/-- One round of deletion: remove the batch's files (`os.Remove`) and
its rows (`DELETE WHERE id IN deleteIDs`). -/
def deleteRecs (batch : List Recording) (st : RecState) : RecState :=
  { rows := st.rows.filter fun r => decide (r.id ∉ batch.map (·.id)),
    files := st.files.filter fun f => decide (f ∉ batch.map (·.path)) }

/-- The `batchDeleteRecordings` loop: fetch up to `batchSize` rows
matching the condition, delete their files and rows, repeat until the
fetch comes back empty.  Each round deletes at least one matching row,
so `st.rows.length + 1` units of fuel always reach the empty fetch. -/
def batchDeleteGo (cond : Recording → Bool) :
    Nat → RecState → RecState
  | 0, st => st
  | fuel + 1, st =>
    let found := (st.rows.filter cond).take expiredBatchSize
    if found = [] then st
    else batchDeleteGo cond fuel (deleteRecs found st)

/-- `batchDeleteRecordings` (`src/unnamed/part_004`, lines 254–308),
specialised to its row/file effect. -/
def batchDeleteRecordings (cond : Recording → Bool) (st : RecState) :
    RecState :=
  batchDeleteGo cond (st.rows.length + 1) st

/-- `cleanupExpiredRecordings` (lines 74–98): guarded by
`RetainDays > 0`, it batch-deletes every row with
`started_at < now − retainDays` (the instant is passed as `cutoff`). -/
def cleanupExpiredRecordings (retainDays : Int) (cutoff : Nat)
    (st : RecState) : RecState :=
  if retainDays ≤ 0 then st
  else batchDeleteRecordings (fun r => decide (r.startedAt < cutoff)) st

/-- `markExpiringRecordings` (lines 51–71): set `delete_flag` on
not-yet-flagged rows with `started_at < now + 1h − retainDays` (the
instant is passed as `expiryCutoff`). -/
def markExpiringRecordings (retainDays : Int) (expiryCutoff : Nat)
    (st : RecState) : RecState :=
  if retainDays ≤ 0 then st
  else { st with rows := st.rows.map fun r =>
      if r.deleteFlag = false ∧ r.startedAt < expiryCutoff then
        { r with deleteFlag := true }
      else r }

/-- Insertion into a list kept ascending by `started_at` (models the
`ORDER BY started_at ASC` fetches). -/
def insertByStartedAt (r : Recording) : List Recording → List Recording
  | [] => [r]
  | x :: xs =>
    if r.startedAt ≤ x.startedAt then r :: x :: xs
    else x :: insertByStartedAt r xs

/-- Sort by `started_at` ascending. -/
def sortByStartedAt : List Recording → List Recording
  | [] => []
  | x :: xs => insertByStartedAt x (sortByStartedAt xs)

/-- The disk-based sweep loop of `cleanupByDiskUsage` (lines 151–195):
while the freed byte count is below the target, fetch the
`diskBatchSize` oldest rows, delete their files and rows, and stop
early when the measured usage drops below the threshold (`usageBelow`
abstracts the `getDiskUsage` filesystem measurement as a predicate on
the remaining rows).  Returns the final state and the deleted rows in
deletion order. -/
def diskLoop (usageBelow : List Recording → Bool) (target : Nat) :
    Nat → Nat → RecState → RecState × List Recording
  | 0, _, st => (st, [])
  | fuel + 1, freed, st =>
    if target ≤ freed then (st, [])
    else
      let batch := (sortByStartedAt st.rows).take diskBatchSize
      if batch = [] then (st, [])
      else
        let st' := deleteRecs batch st
        let freed' := freed + (batch.map (·.size)).sum
        if usageBelow st'.rows then (st', batch)
        else
          let out := diskLoop usageBelow target fuel freed' st'
          (out.1, batch ++ out.2)

/-- `markNextDeletionCandidates`' id-collection loop (lines 233–242):
walk the oldest unflagged rows accumulating sizes until the target is
reached. -/
def collectMarkIDs (target : Nat) : List Recording → Nat → List Nat
  | [], _ => []
  | r :: rest, acc =>
    if target ≤ acc then []
    else r.id :: collectMarkIDs target rest (acc + r.size)

/-- `markNextDeletionCandidates` (lines 217–250): flag the oldest
unflagged rows totalling about `targetSize` bytes. -/
def markNextDeletionCandidates (targetSize : Nat) (st : RecState) :
    RecState :=
  if targetSize = 0 then st
  else
    let candidates := (sortByStartedAt
      (st.rows.filter fun r => decide (r.deleteFlag = false))).take 200
    let markIDs := collectMarkIDs targetSize candidates 0
    { st with rows := st.rows.map fun r =>
        if r.id ∈ markIDs then { r with deleteFlag := true } else r }

/-- The deletion target of `cleanupByDiskUsage` (lines 130–144): the
total size of rows created in the last hour, but at least 100 MiB. -/
def recentTarget (oneHourAgo : Nat) (rows : List Recording) : Nat :=
  max (((rows.filter fun r => decide (oneHourAgo ≤ r.createdAt)).map
    (·.size)).sum) (100 * 1024 * 1024)

/-- `cleanupByDiskUsage` (lines 103–213): no-op unless the threshold
is configured (`0 < threshold < 100`, abstracted as `thresholdOK`) and
the measured usage is at or above it; otherwise run the disk-sweep
loop and predictively flag the next `2 × freed` bytes of oldest
rows. -/
def cleanupByDiskUsage (thresholdOK : Bool)
    (usageBelow : List Recording → Bool) (oneHourAgo : Nat)
    (st : RecState) : RecState × List Recording :=
  if thresholdOK = false then (st, [])
  else if usageBelow st.rows then (st, [])
  else
    let out := diskLoop usageBelow (recentTarget oneHourAgo st.rows)
      (st.rows.length + 1) 0 st
    (markNextDeletionCandidates (2 * ((out.2.map (·.size)).sum)) out.1,
     out.2)

/-- One pass of `runCleanup` (line 44), restricted to its persistent
row/file effect: predictive mark, time-based sweep, disk-based sweep.
Returns the final state and the rows the disk sweep deleted. -/
def retentionSweep (retainDays : Int) (expiryCutoff cutoff oneHourAgo : Nat)
    (thresholdOK : Bool) (usageBelow : List Recording → Bool)
    (st : RecState) : RecState × List Recording :=
  cleanupByDiskUsage thresholdOK usageBelow oneHourAgo
    (cleanupExpiredRecordings retainDays cutoff
      (markExpiringRecordings retainDays expiryCutoff st))

-- ======================================================================
-- Theorems
-- ======================================================================

/-- `lookupLastByChannelID` returns a member of the list bearing the
requested external channel id. -/
theorem lookupLast_mem {l : List IpcChannel} {cid : String}
    {ex : IpcChannel} (h : lookupLastByChannelID l cid = some ex) :
    ex ∈ l ∧ ex.channelID = cid := by
  unfold lookupLastByChannelID at h
  have hx : ex ∈ (l.filter fun c => decide (c.channelID = cid)).getLast? := by
    rw [Option.mem_def]; exact h
  obtain ⟨hne, hex⟩ := List.mem_getLast?_eq_getLast hx
  have hmem : ex ∈ l.filter fun c => decide (c.channelID = cid) :=
    hex ▸ List.getLast_mem hne
  obtain ⟨hl, hp⟩ := List.mem_filter.mp hmem
  exact ⟨hl, of_decide_eq_true hp⟩

/-- The low nibble of byte 7 is always below 16. -/
theorem ptzZoomNibble_lt (i : PTZInput) : ptzZoomNibble i < 16 := by
  unfold ptzZoomNibble
  split
  · exact Nat.mod_lt _ (by norm_num)
  · split
    · exact Nat.mod_lt _ (by norm_num)
    · norm_num

/-- Oring a nibble selector shifted by 4 with a value below 16 and
dividing by 16 recovers the selector. -/
theorem lor_shift4_div16 (a z : Nat) (ha : a ≤ 8) (hz : z < 16) :
    ((a <<< 4) ||| z) / 16 = a := by
  interval_cases a <;> interval_cases z <;> decide

/-- C6: every PTZ command built by `PTZControl` is exactly 8 bytes
starting `0xA5 0x0F 0x01 0x00`, with direction byte up=0x08, down=0x04,
left=0x02, right=0x01 and the diagonals their bitwise ORs,
zoom-in=0x10, zoom-out=0x20, and byte 7's high nibble focus-near=4,
focus-far=8, iris-open=3, iris-close=4; every `PTZPresetControl`
command uses byte 7 = 0x81 for set, 0x82 for goto, 0x83 for remove,
with the preset id (in 1..255) in byte 6. -/
theorem C6_ptz_encoding (i : PTZInput) (cmd : PresetCommand) (pid : Int)
    (hlo : 1 ≤ pid) (hhi : pid ≤ 255) :
    (ptzControlCmd i).length = 8 ∧
    (ptzControlCmd i).take 4 = [0xA5, 0x0F, 0x01, 0x00] ∧
    ptzDirectionByte .up = 0x08 ∧
    ptzDirectionByte .down = 0x04 ∧
    ptzDirectionByte .left = 0x02 ∧
    ptzDirectionByte .right = 0x01 ∧
    ptzDirectionByte .upLeft = ptzDirectionByte .up ||| ptzDirectionByte .left ∧
    ptzDirectionByte .upRight = ptzDirectionByte .up ||| ptzDirectionByte .right ∧
    ptzDirectionByte .downLeft = ptzDirectionByte .down ||| ptzDirectionByte .left ∧
    ptzDirectionByte .downRight = ptzDirectionByte .down ||| ptzDirectionByte .right ∧
    ptzDirectionByte .zoomIn = 0x10 ∧
    ptzDirectionByte .zoomOut = 0x20 ∧
    (i.direction = .focusNear → ptzByte7 i / 16 = 4) ∧
    (i.direction = .focusFar → ptzByte7 i / 16 = 8) ∧
    (i.direction = .irisOpen → ptzByte7 i / 16 = 3) ∧
    (i.direction = .irisClose → ptzByte7 i / 16 = 4) ∧
    ∃ l, ptzPresetCmd cmd pid = some l ∧ l.length = 8 ∧
      l[7]? = some (presetCommandByte cmd) ∧
      presetCommandByte .setPreset = 0x81 ∧
      presetCommandByte .gotoPreset = 0x82 ∧
      presetCommandByte .removePreset = 0x83 ∧
      l[6]? = some pid.toNat := by
  have hz := ptzZoomNibble_lt i
  refine ⟨rfl, rfl, rfl, rfl, rfl, rfl, by decide, by decide, by decide,
    by decide, rfl, rfl, ?_, ?_, ?_, ?_, ?_⟩
  · intro h; simp only [ptzByte7, h]; exact lor_shift4_div16 4 _ (by norm_num) hz
  · intro h; simp only [ptzByte7, h]; exact lor_shift4_div16 8 _ (by norm_num) hz
  · intro h; simp only [ptzByte7, h]; exact lor_shift4_div16 3 _ (by norm_num) hz
  · intro h; simp only [ptzByte7, h]; exact lor_shift4_div16 4 _ (by norm_num) hz
  · refine ⟨[0xA5, 0x0F, 0x01, 0x00, 0x00, 0x00, pid.toNat,
      presetCommandByte cmd], ?_, rfl, rfl, rfl, rfl, rfl, rfl⟩
    unfold ptzPresetCmd
    rw [if_neg (by omega)]

/-- Witness for C6 at a concrete input. -/
theorem C6_ptz_encoding_witness :
    (1 : Int) ≤ 5 ∧ (5 : Int) ≤ 255 ∧
    ((ptzControlCmd ⟨.upLeft, 100, 0, 0, 0⟩).length = 8 ∧
     (ptzControlCmd ⟨.upLeft, 100, 0, 0, 0⟩).take 4 = [0xA5, 0x0F, 0x01, 0x00] ∧
     ptzDirectionByte .up = 0x08 ∧
     ptzDirectionByte .down = 0x04 ∧
     ptzDirectionByte .left = 0x02 ∧
     ptzDirectionByte .right = 0x01 ∧
     ptzDirectionByte .upLeft = ptzDirectionByte .up ||| ptzDirectionByte .left ∧
     ptzDirectionByte .upRight = ptzDirectionByte .up ||| ptzDirectionByte .right ∧
     ptzDirectionByte .downLeft = ptzDirectionByte .down ||| ptzDirectionByte .left ∧
     ptzDirectionByte .downRight = ptzDirectionByte .down ||| ptzDirectionByte .right ∧
     ptzDirectionByte .zoomIn = 0x10 ∧
     ptzDirectionByte .zoomOut = 0x20 ∧
     ((⟨.upLeft, 100, 0, 0, 0⟩ : PTZInput).direction = .focusNear →
       ptzByte7 ⟨.upLeft, 100, 0, 0, 0⟩ / 16 = 4) ∧
     ((⟨.upLeft, 100, 0, 0, 0⟩ : PTZInput).direction = .focusFar →
       ptzByte7 ⟨.upLeft, 100, 0, 0, 0⟩ / 16 = 8) ∧
     ((⟨.upLeft, 100, 0, 0, 0⟩ : PTZInput).direction = .irisOpen →
       ptzByte7 ⟨.upLeft, 100, 0, 0, 0⟩ / 16 = 3) ∧
     ((⟨.upLeft, 100, 0, 0, 0⟩ : PTZInput).direction = .irisClose →
       ptzByte7 ⟨.upLeft, 100, 0, 0, 0⟩ / 16 = 4) ∧
     ∃ l, ptzPresetCmd .gotoPreset 5 = some l ∧ l.length = 8 ∧
       l[7]? = some (presetCommandByte .gotoPreset) ∧
       presetCommandByte .setPreset = 0x81 ∧
       presetCommandByte .gotoPreset = 0x82 ∧
       presetCommandByte .removePreset = 0x83 ∧
       l[6]? = some (5 : Int).toNat) :=
  ⟨by decide, by decide,
   C6_ptz_encoding ⟨.upLeft, 100, 0, 0, 0⟩ .gotoPreset 5 (by decide) (by decide)⟩

/-- C5 counterexample: the claim says `Setup` sets
`hook_timeout_sec = 10` and registers an `on_record_mp4` webhook; at a
concrete media server the request built by `Setup` carries
`hook_timeout_sec = "20"` and leaves the `on_record_mp4` hook unset. -/
theorem C5_zlm_setup_counterexample :
    (zlmSetupRequest ⟨"ms1", "10.0.0.1", "secret", "30000-30500", 10⟩
        "http://cb").hookTimeoutSec = some "20" ∧
    (zlmSetupRequest ⟨"ms1", "10.0.0.1", "secret", "30000-30500", 10⟩
        "http://cb").hookTimeoutSec ≠ some "10" ∧
    (zlmSetupRequest ⟨"ms1", "10.0.0.1", "secret", "30000-30500", 10⟩
        "http://cb").hookOnRecordMp4 = none := by
  refine ⟨rfl, ?_, rfl⟩
  intro h
  have h2 : ("20" : String) = "10" := Option.some.inj h
  exact absurd h2 (by decide)

/-- C5 (amended): for every media server, `ZLMDriver.Setup` registers
webhook URLs for `on_play`, `on_publish`, `on_stream_none_reader`,
`on_stream_not_found`, `on_stream_changed` and `on_server_keepalive`
(but no `on_record_mp4` hook), sets
`stream_none_reader_delay_ms = 30000`, `hook_timeout_sec = 20`,
`rtp_proxy_port_range = ms.RTPPortRange`,
`ProtocolEnableHlsFmp4 = 1`, and disables the legacy TS/FMP4/HLS
protocols. -/
theorem C5_zlm_setup_config (ms : MediaServer) (url : String) :
    (zlmSetupRequest ms url).hookOnPlay = some (url ++ "/on_play") ∧
    (zlmSetupRequest ms url).hookOnPublish = some (url ++ "/on_publish") ∧
    (zlmSetupRequest ms url).hookOnStreamNoneReader
      = some (url ++ "/on_stream_none_reader") ∧
    (zlmSetupRequest ms url).hookOnStreamNotFound
      = some (url ++ "/on_stream_not_found") ∧
    (zlmSetupRequest ms url).hookOnStreamChanged
      = some (url ++ "/on_stream_changed") ∧
    (zlmSetupRequest ms url).hookOnServerKeepalive
      = some (url ++ "/on_server_keepalive") ∧
    (zlmSetupRequest ms url).hookOnRecordMp4 = none ∧
    (zlmSetupRequest ms url).generalStreamNoneReaderDelayMS = some "30000" ∧
    (zlmSetupRequest ms url).hookTimeoutSec = some "20" ∧
    (zlmSetupRequest ms url).rtpProxyPortRange = some ms.rtpPortRange ∧
    (zlmSetupRequest ms url).protocolEnableHlsFmp4 = some "1" ∧
    (zlmSetupRequest ms url).protocolEnableTs = some "0" ∧
    (zlmSetupRequest ms url).protocolEnableFmp4 = some "0" ∧
    (zlmSetupRequest ms url).protocolEnableHls = some "0" :=
  ⟨rfl, rfl, rfl, rfl, rfl, rfl, rfl, rfl, rfl, rfl, rfl, rfl, rfl, rfl⟩

/-- C1 counterexample: the claim says that on every accepted publish
the channel's `pushed_at` and `session` are updated; for a channel with
`IsAuthDisabled = true` the adapter accepts (code 0) but returns before
the update, leaving the store — in particular `pushed_at` — unchanged. -/
theorem C1_counterexample :
    (onPublishWebhookRTMP (fun x => x) "secret" 1000
        ⟨[{ id := "ch1", app := "live", stream := "demo",
            config := { isAuthDisabled := true } }]⟩
        "live" "demo" []).1.code = 0 ∧
    (onPublishWebhookRTMP (fun x => x) "secret" 1000
        ⟨[{ id := "ch1", app := "live", stream := "demo",
            config := { isAuthDisabled := true } }]⟩
        "live" "demo" []).2 =
      ⟨[{ id := "ch1", app := "live", stream := "demo",
          config := { isAuthDisabled := true } }]⟩ ∧
    ∀ c ∈ (onPublishWebhookRTMP (fun x => x) "secret" 1000
        ⟨[{ id := "ch1", app := "live", stream := "demo",
            config := { isAuthDisabled := true } }]⟩
        "live" "demo" []).2.channels, c.config.pushedAt = none := by
  refine ⟨rfl, rfl, ?_⟩
  intro c hc
  simp only [onPublishWebhookRTMP, rtmpOnPublish, getChannelByAppStreamOrID,
    List.find?] at hc
  simp_all

/-- A channel whose id misses the edit target is untouched by
`editChannelConfigAndOnline`. -/
theorem edit_keep (s : RtmpState) (id : String) (online : Bool)
    (f : StreamConfig → StreamConfig) (c : RtmpChannel)
    (hc : c ∈ s.channels) (hne : c.id ≠ id) :
    c ∈ (editChannelConfigAndOnline s id online f).channels := by
  unfold editChannelConfigAndOnline
  have h := List.mem_map_of_mem (fun c : RtmpChannel =>
    if c.id = id then { c with isOnline := online, config := f c.config }
    else c) hc
  simp only [if_neg hne] at h
  exact h

/-- A channel whose id matches the edit target appears updated in
`editChannelConfigAndOnline`'s result. -/
theorem edit_mem (s : RtmpState) (id : String) (online : Bool)
    (f : StreamConfig → StreamConfig) (c : RtmpChannel)
    (hc : c ∈ s.channels) (heq : c.id = id) :
    { c with isOnline := online, config := f c.config }
      ∈ (editChannelConfigAndOnline s id online f).channels := by
  unfold editChannelConfigAndOnline
  have h := List.mem_map_of_mem (fun c : RtmpChannel =>
    if c.id = id then { c with isOnline := online, config := f c.config }
    else c) hc
  simp only [if_pos heq] at h
  exact h

/-- C1 (amended): for an `on_publish` webhook naming an RTMP channel
that exists in the store, the publish is accepted (code 0) iff
`IsAuthDisabled ∨ params["sign"] = MD5(RTMPSecret)`; on rejection the
webhook replies code 1 with msg "鉴权失败" and the store is unchanged;
on acceptance via a signature match the channel's `pushed_at`,
`session` and online flag are updated; on acceptance via
`IsAuthDisabled` the store is left unchanged. -/
theorem C1_publish_auth (md5 : String → String) (secret : String) (now : Nat)
    (s : RtmpState) (app stream : String) (params : List (String × String))
    (ch : RtmpChannel)
    (hch : getChannelByAppStreamOrID s app stream = some ch) :
    ((onPublishWebhookRTMP md5 secret now s app stream params).1.code = 0 ↔
      (ch.config.isAuthDisabled = true ∨
        lookupParam params "sign" = md5 secret)) ∧
    (¬(ch.config.isAuthDisabled = true ∨
        lookupParam params "sign" = md5 secret) →
      (onPublishWebhookRTMP md5 secret now s app stream params).1
          = ⟨1, "鉴权失败"⟩ ∧
      (onPublishWebhookRTMP md5 secret now s app stream params).2 = s) ∧
    (ch.config.isAuthDisabled = true →
      (onPublishWebhookRTMP md5 secret now s app stream params).2 = s) ∧
    (ch.config.isAuthDisabled = false →
      lookupParam params "sign" = md5 secret →
      (∀ c ∈ s.channels, c.id ≠ ch.id →
        c ∈ (onPublishWebhookRTMP md5 secret now s app stream params).2.channels) ∧
      ∃ c ∈ (onPublishWebhookRTMP md5 secret now s app stream params).2.channels,
        c.id = ch.id ∧ c.isOnline = true ∧ c.config.pushedAt = some now ∧
        c.config.session = lookupParam params "session") := by
  by_cases hd : ch.config.isAuthDisabled
  · have hout : onPublishWebhookRTMP md5 secret now s app stream params
        = (newDefaultOutputOK, s) := by
      unfold onPublishWebhookRTMP rtmpOnPublish
      rw [hch]
      simp [hd]
    refine ⟨?_, ?_, ?_, ?_⟩
    · rw [hout]; simpa [newDefaultOutputOK] using Or.inl hd
    · intro hn; exact absurd (Or.inl hd) hn
    · intro _; rw [hout]
    · intro hcontra; rw [hcontra] at hd; exact absurd hd (by decide)
  · by_cases hs : lookupParam params "sign" = md5 secret
    · have hout : onPublishWebhookRTMP md5 secret now s app stream params
          = (newDefaultOutputOK,
             editChannelConfigAndOnline s ch.id true fun cfg =>
               { cfg with pushedAt := some now,
                          session := lookupParam params "session" }) := by
        unfold onPublishWebhookRTMP rtmpOnPublish
        rw [hch]
        simp [hd, hs]
      refine ⟨?_, ?_, fun h => absurd h hd, ?_⟩
      · rw [hout]; simpa [newDefaultOutputOK] using Or.inr hs
      · intro hn; exact absurd (Or.inr hs) hn
      · intro _ _
        rw [hout]
        refine ⟨fun c hc hne => edit_keep _ _ _ _ c hc hne, ?_⟩
        have hmem : ch ∈ s.channels := List.mem_of_find?_eq_some hch
        exact ⟨_, edit_mem _ _ _ _ ch hmem rfl, rfl, rfl, rfl, rfl⟩
    · have hout : onPublishWebhookRTMP md5 secret now s app stream params
          = (⟨1, "鉴权失败"⟩, s) := by
        unfold onPublishWebhookRTMP rtmpOnPublish
        rw [hch]
        simp [hd, hs]
      refine ⟨?_, ?_, fun h => absurd h hd, fun _ h => absurd h hs⟩
      · rw [hout]
        simp only [Bool.not_eq_true] at hd
        simp [hd, hs]
      · intro _; rw [hout]; exact ⟨rfl, rfl⟩

/-- Witness for C1 at a concrete input (signature-match path). -/
theorem C1_publish_auth_witness :
    getChannelByAppStreamOrID ⟨[{ id := "ch1", app := "live", stream := "demo" }]⟩
        "live" "demo" = some { id := "ch1", app := "live", stream := "demo" } ∧
    (((onPublishWebhookRTMP (fun _ => "SIG") "secret" 42
        ⟨[{ id := "ch1", app := "live", stream := "demo" }]⟩
        "live" "demo" [("sign", "SIG")]).1.code = 0 ↔
      (({ id := "ch1", app := "live", stream := "demo" } :
          RtmpChannel).config.isAuthDisabled = true ∨
        lookupParam [("sign", "SIG")] "sign" = (fun _ : String => "SIG") "secret")) ∧
    (¬(({ id := "ch1", app := "live", stream := "demo" } :
          RtmpChannel).config.isAuthDisabled = true ∨
        lookupParam [("sign", "SIG")] "sign" = (fun _ : String => "SIG") "secret") →
      (onPublishWebhookRTMP (fun _ => "SIG") "secret" 42
          ⟨[{ id := "ch1", app := "live", stream := "demo" }]⟩
          "live" "demo" [("sign", "SIG")]).1 = ⟨1, "鉴权失败"⟩ ∧
      (onPublishWebhookRTMP (fun _ => "SIG") "secret" 42
          ⟨[{ id := "ch1", app := "live", stream := "demo" }]⟩
          "live" "demo" [("sign", "SIG")]).2
        = ⟨[{ id := "ch1", app := "live", stream := "demo" }]⟩) ∧
    (({ id := "ch1", app := "live", stream := "demo" } :
        RtmpChannel).config.isAuthDisabled = true →
      (onPublishWebhookRTMP (fun _ => "SIG") "secret" 42
          ⟨[{ id := "ch1", app := "live", stream := "demo" }]⟩
          "live" "demo" [("sign", "SIG")]).2
        = ⟨[{ id := "ch1", app := "live", stream := "demo" }]⟩) ∧
    (({ id := "ch1", app := "live", stream := "demo" } :
        RtmpChannel).config.isAuthDisabled = false →
      lookupParam [("sign", "SIG")] "sign" = (fun _ : String => "SIG") "secret" →
      (∀ c ∈ (⟨[{ id := "ch1", app := "live", stream := "demo" }]⟩ :
          RtmpState).channels, c.id ≠ "ch1" →
        c ∈ (onPublishWebhookRTMP (fun _ => "SIG") "secret" 42
            ⟨[{ id := "ch1", app := "live", stream := "demo" }]⟩
            "live" "demo" [("sign", "SIG")]).2.channels) ∧
      ∃ c ∈ (onPublishWebhookRTMP (fun _ => "SIG") "secret" 42
          ⟨[{ id := "ch1", app := "live", stream := "demo" }]⟩
          "live" "demo" [("sign", "SIG")]).2.channels,
        c.id = "ch1" ∧ c.isOnline = true ∧ c.config.pushedAt = some 42 ∧
        c.config.session = lookupParam [("sign", "SIG")] "session")) :=
  ⟨rfl, C1_publish_auth (fun _ => "SIG") "secret" 42
      ⟨[{ id := "ch1", app := "live", stream := "demo" }]⟩
      "live" "demo" [("sign", "SIG")]
      { id := "ch1", app := "live", stream := "demo" } rfl⟩

/-- One checker tick computes `tickStatus` and writes exactly when the
flag flips. -/
theorem checkDeviceStatus_step (now : Nat) (d : OnvifDevice) :
    (checkDeviceStatus now d).1.isOnline
      = tickStatus d.isOnline (now, d.keepaliveAt) ∧
    (checkDeviceStatus now d).2
      = (tickStatus d.isOnline (now, d.keepaliveAt) != d.isOnline) := by
  obtain ⟨ka, online⟩ := d
  simp only [checkDeviceStatus, tickStatus]
  by_cases hka : ka = 0
  · simp [hka]
  · simp only [if_neg hka]
    cases hdec : decide (now - ka < heartbeatTimeoutSec) <;>
      cases online <;> simp_all

/-- C8 counterexample: with `KeepaliveAt = 1` at `now = 71` the elapsed
time is exactly 70 s, which does not *exceed* the 70 s timeout, yet the
checker marks the device offline. -/
theorem C8_counterexample :
    (checkDeviceStatus 71 ⟨1, true⟩).1.isOnline = false ∧
    ¬ (70 < 71 - 1) := by
  constructor
  · rfl
  · omega

/-- C8 (amended): for a device with a nonzero keepalive timestamp the
status checker marks it offline exactly when `now − KeepaliveAt` is at
least the 70 s timeout (and online otherwise); a DB write happens
exactly when the in-memory flag flips; and over any run the number of
DB writes equals the number of boolean transitions of the status
trace. -/
theorem C8_onvif_state_edge (now : Nat) (d : OnvifDevice)
    (obs : List (Nat × Nat)) (hka : d.keepaliveAt ≠ 0) :
    ((checkDeviceStatus now d).1.isOnline = false ↔
      heartbeatTimeoutSec ≤ now - d.keepaliveAt) ∧
    ((checkDeviceStatus now d).2 = true ↔
      (checkDeviceStatus now d).1.isOnline ≠ d.isOnline) ∧
    (runStatusChecker d obs).2
      = countTransitions d.isOnline (statusTrace d.isOnline obs) := by
  refine ⟨?_, ?_, ?_⟩
  · unfold checkDeviceStatus
    rw [if_neg hka]
    by_cases hflip : d.isOnline = decide (now - d.keepaliveAt < heartbeatTimeoutSec)
    · simp only [if_pos hflip]
      rw [hflip]
      simp
    · simp only [if_neg hflip]
      simp
  · have h := checkDeviceStatus_step now d
    rw [h.1, h.2]
    simp
  · clear hka
    induction obs generalizing d with
    | nil => rfl
    | cons o rest ih =>
      obtain ⟨onow, oka⟩ := o
      have hstep := checkDeviceStatus_step onow { d with keepaliveAt := oka }
      have h1 : ({ d with keepaliveAt := oka } : OnvifDevice).isOnline
          = d.isOnline := rfl
      have h2 : ({ d with keepaliveAt := oka } : OnvifDevice).keepaliveAt
          = oka := rfl
      rw [h1, h2] at hstep
      simp only [runStatusChecker, statusTrace, countTransitions]
      rw [ih (checkDeviceStatus onow { d with keepaliveAt := oka }).1]
      rw [hstep.1, hstep.2]
      cases h3 : tickStatus d.isOnline (onow, oka) <;> cases h4 : d.isOnline <;>
        simp

/-- Witness for C8 at a concrete input: keepalive at second 1, checked
at second 30 (online), then at seconds 80 and 200 with a heartbeat at
150 (offline, then online again). -/
theorem C8_onvif_state_edge_witness :
    (⟨1, true⟩ : OnvifDevice).keepaliveAt ≠ 0 ∧
    (((checkDeviceStatus 30 ⟨1, true⟩).1.isOnline = false ↔
        heartbeatTimeoutSec ≤ 30 - (⟨1, true⟩ : OnvifDevice).keepaliveAt) ∧
     ((checkDeviceStatus 30 ⟨1, true⟩).2 = true ↔
        (checkDeviceStatus 30 ⟨1, true⟩).1.isOnline
          ≠ (⟨1, true⟩ : OnvifDevice).isOnline) ∧
     (runStatusChecker ⟨1, true⟩ [(30, 1), (80, 1), (200, 150)]).2
        = countTransitions (⟨1, true⟩ : OnvifDevice).isOnline
            (statusTrace (⟨1, true⟩ : OnvifDevice).isOnline
              [(30, 1), (80, 1), (200, 150)])) :=
  ⟨by decide, C8_onvif_state_edge 30 ⟨1, true⟩ [(30, 1), (80, 1), (200, 150)]
      (by decide)⟩

/-- A row whose primary key misses the target of a step-5 update map
is carried over unchanged. -/
theorem mem_updMap_of_ne (l : List IpcChannel) (exid : String)
    (r : IpcChannel) (c : IpcChannel) (hc : c ∈ l) (hne : c.id ≠ exid) :
    c ∈ l.map fun c =>
      if c.id = exid then
        { c with name := r.name, isOnline := r.isOnline, ext := r.ext }
      else c := by
  have h := List.mem_map_of_mem (fun c : IpcChannel =>
    if c.id = exid then
      { c with name := r.name, isOnline := r.isOnline, ext := r.ext }
    else c) hc
  simp only [if_neg hne] at h
  exact h

/-- The update target of a step-5 update map appears updated. -/
theorem mem_updMap_self (l : List IpcChannel) (r : IpcChannel)
    (ex : IpcChannel) (hc : ex ∈ l) :
    ({ ex with name := r.name, isOnline := r.isOnline, ext := r.ext })
      ∈ l.map fun c =>
        if c.id = ex.id then
          { c with name := r.name, isOnline := r.isOnline, ext := r.ext }
        else c := by
  have h := List.mem_map_of_mem (fun c : IpcChannel =>
    if c.id = ex.id then
      { c with name := r.name, isOnline := r.isOnline, ext := r.ext }
    else c) hc
  simp only [if_pos rfl] at h
  exact h

/-- The invariant of `SaveChannels`' step-5 loop.  `orig` is the
channel table before the merge, `E = existingMap`'s backing list,
`done`/`todo` split the report.  On entry every unprocessed existing
row is intact, every processed report row is good, and every original
row not yet targeted survives; on exit the same holds with everything
processed. -/
theorem saveChannelsLoop_inv
    (devID devRowID : String) (orig : List IpcChannel)
    (origNext bound : Nat) (E : List IpcChannel)
    (hE : E = orig.filter fun c => decide (c.deviceID = devID))
    (hnodupIDs : (orig.map (·.id)).Nodup)
    (hfresh : ∀ c ∈ orig, ∀ n, origNext ≤ n → n < bound →
      c.id ≠ genChannelID n) :
    ∀ (todo done : List IpcChannel) (t : IpcStore),
    ((done ++ todo).map (·.channelID)).Nodup →
    (∀ r ∈ todo, r.deviceID = devID) →
    origNext ≤ t.nextID →
    t.nextID + todo.length ≤ bound →
    (∀ ex ∈ E, ex.channelID ∉ done.map (·.channelID) → ex ∈ t.channels) →
    (∀ r ∈ done, GoodRow devID orig E t r) →
    (∀ c ∈ orig, (c.deviceID ≠ devID ∨ c.channelID ∉ done.map (·.channelID)) →
        c ∈ t.channels) →
    (∀ r ∈ done ++ todo,
        GoodRow devID orig E (saveChannelsLoop devRowID E t todo) r) ∧
    (∀ c ∈ orig,
        (c.deviceID ≠ devID ∨ c.channelID ∉ (done ++ todo).map (·.channelID)) →
        c ∈ (saveChannelsLoop devRowID E t todo).channels) := by
  have hinj : ∀ x ∈ orig, ∀ y ∈ orig, x.id = y.id → x = y := by
    intro x hx y hy hxy
    exact List.inj_on_of_nodup_map hnodupIDs hx hy hxy
  have hEsub : ∀ ex ∈ E, ex ∈ orig := by
    intro ex hex
    rw [hE] at hex
    exact List.mem_of_mem_filter hex
  have hEdev : ∀ ex ∈ E, ex.deviceID = devID := by
    intro ex hex
    rw [hE] at hex
    exact of_decide_eq_true (List.mem_filter.mp hex).2
  intro todo
  induction todo with
  | nil =>
    intro done t hnodup _ _ _ _ hgood hframe
    refine ⟨?_, ?_⟩
    · intro r hr
      exact hgood r (by simpa using hr)
    · intro c hc hcond
      exact hframe c hc (by simpa using hcond)
  | cons r rest ih =>
    intro done t hnodup hdevTodo hnext hbound hintact hgood hframe
    have hrdev : r.deviceID = devID := hdevTodo r (List.mem_cons_self _ _)
    have hdevRest : ∀ x ∈ rest, x.deviceID = devID := fun x hx =>
      hdevTodo x (List.mem_cons_of_mem _ hx)
    -- r's channel id is fresh among done and rest
    have hrcid_done : r.channelID ∉ done.map (·.channelID) := by
      intro hmem
      have : (done.map (·.channelID) ++
          (r.channelID :: rest.map (·.channelID))).Nodup := by
        simpa using hnodup
      have hdisj := (List.nodup_append.mp this).2.2
      exact hdisj hmem (List.mem_cons_self _ _)
    have hloop : saveChannelsLoop devRowID E t (r :: rest)
        = saveChannelsLoop devRowID E (saveChannelsStep devRowID E t r) rest :=
      rfl
    have hassoc : (done ++ r :: rest) = ((done ++ [r]) ++ rest) := by
      simp
    have hnodup' : (((done ++ [r]) ++ rest).map (·.channelID)).Nodup := by
      rw [← hassoc]; exact hnodup
    -- case split on the existingMap lookup
    cases hlk : lookupLastByChannelID E r.channelID with
    | some ex =>
      obtain ⟨hexE, hexcid⟩ := lookupLast_mem hlk
      have hexOrig : ex ∈ orig := hEsub ex hexE
      have hstep : saveChannelsStep devRowID E t r =
          { t with channels := t.channels.map fun c =>
              if c.id = ex.id then
                { c with name := r.name, isOnline := r.isOnline, ext := r.ext }
              else c } := by
        unfold saveChannelsStep
        rw [hlk]
      set t' := saveChannelsStep devRowID E t r with ht'
      have ht'next : t'.nextID = t.nextID := by rw [hstep]
      have ht'ch : t'.channels = t.channels.map fun c =>
          if c.id = ex.id then
            { c with name := r.name, isOnline := r.isOnline, ext := r.ext }
          else c := by rw [hstep]
      have happly := ih (done ++ [r]) t' hnodup' hdevRest
        (by rw [ht'next]; exact hnext)
        (by rw [ht'next]; simpa using Nat.le_of_succ_le (by simpa using hbound))
        ?_ ?_ ?_
      · rw [hloop, hassoc]
        exact happly
      -- intact E rows
      · intro ex' hex' hcid'
        have hcid'r : ex'.channelID ≠ r.channelID := by
          intro h
          apply hcid'
          simp [h]
        have hcid'done : ex'.channelID ∉ done.map (·.channelID) := by
          intro h
          exact hcid' (by simp [h])
        have hex't : ex' ∈ t.channels := hintact ex' hex' hcid'done
        have hne : ex'.id ≠ ex.id := by
          intro h
          have : ex' = ex := hinj ex' (hEsub ex' hex') ex hexOrig h
          exact hcid'r (by rw [this, hexcid])
        rw [ht'ch]
        exact mem_updMap_of_ne _ _ _ _ hex't hne
      -- good rows
      · intro r' hr'
        rcases List.mem_append.mp hr' with hr'done | hr'new
        · obtain ⟨c, hcmem, hcdev, hccid, hcname, hconl, hcext, hcid⟩ :=
            hgood r' hr'done
          have hr'cid : r'.channelID ≠ r.channelID := by
            intro h
            apply hrcid_done
            rw [← h]
            exact List.mem_map_of_mem _ hr'done
          have hcne : c.id ≠ ex.id := by
            cases hlk' : lookupLastByChannelID E r'.channelID with
            | some ex' =>
              rw [hlk'] at hcid
              obtain ⟨hex'E, hex'cid⟩ := lookupLast_mem hlk'
              intro h
              have : ex' = ex := hinj ex' (hEsub ex' hex'E) ex hexOrig
                (by rw [← hcid, h])
              exact hr'cid (by rw [← hex'cid, this, hexcid])
            | none =>
              rw [hlk'] at hcid
              exact hcid ex hexOrig
          refine ⟨c, ?_, hcdev, hccid, hcname, hconl, hcext, hcid⟩
          rw [ht'ch]
          exact mem_updMap_of_ne _ _ _ _ hcmem hcne
        · have hr'r : r' = r := by simpa using hr'new
          rw [hr'r]
          have hext : ex ∈ t.channels := hintact ex hexE
            (by rw [hexcid]; exact hrcid_done)
          refine ⟨{ ex with name := r.name, isOnline := r.isOnline,
                            ext := r.ext },
                  ?_, ?_, ?_, rfl, rfl, rfl, ?_⟩
          · rw [ht'ch]
            exact mem_updMap_self _ _ _ hext
          · exact hEdev ex hexE
          · exact hexcid
          · rw [hlk]
      -- frame
      · intro c hc hcond
        have hcond0 : c.deviceID ≠ devID ∨ c.channelID ∉ done.map (·.channelID) := by
          rcases hcond with h | h
          · exact Or.inl h
          · exact Or.inr fun hm => h (by simp [hm])
        have hct : c ∈ t.channels := hframe c hc hcond0
        have hcne : c.id ≠ ex.id := by
          intro h
          have hceq : c = ex := hinj c hc ex hexOrig h
          rcases hcond with hdev' | hcid'
          · exact hdev' (by rw [hceq]; exact hEdev ex hexE)
          · apply hcid'
            rw [hceq, hexcid]
            simp
        rw [ht'ch]
        exact mem_updMap_of_ne _ _ _ _ hct hcne
    | none =>
      have hstep : saveChannelsStep devRowID E t r =
          { t with channels := t.channels ++
                     [{ r with id := genChannelID t.nextID, did := devRowID }],
                   nextID := t.nextID + 1 } := by
        unfold saveChannelsStep
        rw [hlk]
      set t' := saveChannelsStep devRowID E t r with ht'
      have ht'next : t'.nextID = t.nextID + 1 := by rw [hstep]
      have ht'ch : t'.channels = t.channels ++
          [{ r with id := genChannelID t.nextID, did := devRowID }] := by
        rw [hstep]
      have hfreshTop : ∀ c0 ∈ orig,
          ({ r with id := genChannelID t.nextID, did := devRowID } :
            IpcChannel).id ≠ c0.id := by
        intro c0 hc0 h
        have hb : t.nextID < bound := by
          have := hbound
          simp only [List.length_cons] at this
          omega
        exact hfresh c0 hc0 t.nextID hnext hb h.symm
      have happly := ih (done ++ [r]) t' hnodup' hdevRest
        (by rw [ht'next]; omega)
        (by rw [ht'next]; simp only [List.length_cons] at hbound; omega)
        ?_ ?_ ?_
      · rw [hloop, hassoc]
        exact happly
      · intro ex' hex' hcid'
        have hcid'done : ex'.channelID ∉ done.map (·.channelID) := by
          intro h
          exact hcid' (by simp [h])
        rw [ht'ch]
        exact List.mem_append_left _ (hintact ex' hex' hcid'done)
      · intro r' hr'
        rcases List.mem_append.mp hr' with hr'done | hr'new
        · obtain ⟨c, hcmem, hrest⟩ := hgood r' hr'done
          exact ⟨c, by rw [ht'ch]; exact List.mem_append_left _ hcmem, hrest⟩
        · have hr'r : r' = r := by simpa using hr'new
          rw [hr'r]
          refine ⟨{ r with id := genChannelID t.nextID, did := devRowID },
            ?_, hrdev, rfl, rfl, rfl, rfl, ?_⟩
          · rw [ht'ch]
            exact List.mem_append_right _ (by simp)
          · rw [hlk]
            exact hfreshTop
      · intro c hc hcond
        have hcond0 : c.deviceID ≠ devID ∨ c.channelID ∉ done.map (·.channelID) := by
          rcases hcond with h | h
          · exact Or.inl h
          · exact Or.inr fun hm => h (by simp [hm])
        rw [ht'ch]
        exact List.mem_append_left _ (hframe c hc hcond0)

/-- A channel whose external id is in the reported list passes through
`batchOffline` untouched. -/
theorem mem_batchOffline_of_current (s : IpcStore) (devID : String)
    (currentIDs : List String) (c : IpcChannel) (hc : c ∈ s.channels)
    (hcur : c.channelID ∈ currentIDs) :
    c ∈ (batchOffline s devID currentIDs).channels := by
  unfold batchOffline
  have h := List.mem_map_of_mem (fun c : IpcChannel =>
    if c.deviceID = devID ∧ c.channelID ∉ currentIDs then
      { c with isOnline := false }
    else c) hc
  simp only [if_neg (fun h' : c.deviceID = devID ∧ c.channelID ∉ currentIDs =>
    h'.2 hcur)] at h
  exact h

/-- A device channel whose external id is absent from the reported
list is offline-marked by `batchOffline`. -/
theorem mem_batchOffline_marked (s : IpcStore) (devID : String)
    (currentIDs : List String) (c : IpcChannel) (hc : c ∈ s.channels)
    (hdev : c.deviceID = devID) (hnc : c.channelID ∉ currentIDs) :
    ({ c with isOnline := false }) ∈ (batchOffline s devID currentIDs).channels := by
  unfold batchOffline
  have h := List.mem_map_of_mem (fun c : IpcChannel =>
    if c.deviceID = devID ∧ c.channelID ∉ currentIDs then
      { c with isOnline := false }
    else c) hc
  simp only [if_pos (⟨hdev, hnc⟩ : c.deviceID = devID ∧ c.channelID ∉ currentIDs)] at h
  exact h

/-- C2: after `SaveChannels` merges a non-empty report `R` for one
device (with pairwise-distinct reported external ids, over a store
with unique internal ids whose id counter has not been overtaken),
every external id in `R` is present in the result with the reported
name, online flag and extension fields — via the pre-existing row when
the id was already known, and via a freshly minted internal id unknown
to the original store otherwise — and every prior channel of the
device whose external id is absent from `R` is still present (not
deleted) with `online = false`. -/
theorem C2_channel_merge (s : IpcStore) (R : List IpcChannel) (devID : String)
    (hne : R ≠ [])
    (hdev : ∀ r ∈ R, r.deviceID = devID)
    (hnodupR : (R.map (·.channelID)).Nodup)
    (hnodupIDs : (s.channels.map (·.id)).Nodup)
    (hfresh : ∀ c ∈ s.channels, ∀ n, s.nextID ≤ n → n < s.nextID + R.length →
        c.id ≠ genChannelID n) :
    (∀ r ∈ R, ∃ c ∈ (saveChannels s R).channels,
        c.deviceID = devID ∧ c.channelID = r.channelID ∧ c.name = r.name ∧
        c.isOnline = r.isOnline ∧ c.ext = r.ext ∧
        (lookupLastByChannelID
            (s.channels.filter fun c => decide (c.deviceID = devID))
            r.channelID = none →
          ∀ c0 ∈ s.channels, c.id ≠ c0.id)) ∧
    (∀ c ∈ s.channels, c.deviceID = devID →
        c.channelID ∉ R.map (·.channelID) →
        ∃ c' ∈ (saveChannels s R).channels,
          c'.id = c.id ∧ c'.channelID = c.channelID ∧ c'.isOnline = false) := by
  obtain ⟨ch0, rest, rfl⟩ := List.exists_cons_of_ne_nil hne
  have hdev0 : ch0.deviceID = devID := hdev ch0 (List.mem_cons_self _ _)
  subst hdev0
  set R := ch0 :: rest with hR
  set s1 := editDeviceChannels s ch0.deviceID R.length with hs1
  set devRowID :=
    ((s1.devices.find? fun d => decide (d.deviceID = ch0.deviceID)).map
      (·.id)).getD "" with hdevRowID
  set E := s1.channels.filter fun c => decide (c.deviceID = ch0.deviceID)
    with hEdef
  set s2 := saveChannelsLoop devRowID E s1 R with hs2
  set s3 := batchOffline s2 ch0.deviceID (R.map (·.channelID)) with hs3
  have hEs : E = s.channels.filter fun c => decide (c.deviceID = ch0.deviceID) :=
    rfl
  have hfinal : saveChannels s R = editDeviceChannels s3 ch0.deviceID R.length :=
    rfl
  have hfinalch : (saveChannels s R).channels = s3.channels := by
    rw [hfinal]
    rfl
  have hloop := saveChannelsLoop_inv ch0.deviceID devRowID s.channels
    s.nextID (s.nextID + R.length) E hEs hnodupIDs hfresh R [] s1
    (by simpa using hnodupR) hdev (le_refl _) (le_refl _)
    (fun ex hex _ => by
      rw [hEs] at hex
      exact List.mem_of_mem_filter hex)
    (fun r hr => absurd hr (List.not_mem_nil r))
    (fun c hc _ => hc)
  obtain ⟨hGood, hFrame⟩ := hloop
  constructor
  · intro r hr
    obtain ⟨c, hcmem, hcdev, hccid, hcname, hconl, hcext, hcid⟩ :=
      hGood r (by simpa using hr)
    have hcur : c.channelID ∈ R.map (·.channelID) := by
      rw [hccid]
      exact List.mem_map_of_mem _ hr
    refine ⟨c, ?_, hcdev, hccid, hcname, hconl, hcext, ?_⟩
    · rw [hfinalch, hs3]
      exact mem_batchOffline_of_current s2 ch0.deviceID _ c hcmem hcur
    · intro hnone
      rw [← hEs] at hnone
      rw [hnone] at hcid
      exact hcid
  · intro c hc hcdev hnc
    have hcmem : c ∈ s2.channels := hFrame c hc (by simpa using Or.inr hnc)
    refine ⟨{ c with isOnline := false }, ?_, rfl, rfl, rfl⟩
    rw [hfinalch, hs3]
    exact mem_batchOffline_marked s2 ch0.deviceID _ c hcmem hcdev hnc

/-- Witness for C2: a store holding device `dev1` with channels `chX`
(stale) and `ch1`, merged with a report carrying `ch1` (renamed,
online) and a new `ch2`. -/
theorem C2_channel_merge_witness :
    ([⟨"", "", "dev1", "ch1", "Cam1", true, {}⟩,
      ⟨"", "", "dev1", "ch2", "Cam2", false, {}⟩] : List IpcChannel) ≠ [] ∧
    (∀ r ∈ ([⟨"", "", "dev1", "ch1", "Cam1", true, {}⟩,
             ⟨"", "", "dev1", "ch2", "Cam2", false, {}⟩] : List IpcChannel),
       r.deviceID = "dev1") ∧
    (([⟨"", "", "dev1", "ch1", "Cam1", true, {}⟩,
       ⟨"", "", "dev1", "ch2", "Cam2", false, {}⟩] : List IpcChannel).map
      (·.channelID)).Nodup ∧
    ((⟨[⟨"d1", "dev1", 0⟩],
       [⟨"cOld", "d1", "dev1", "chX", "Old", true, {}⟩,
        ⟨"cUpd", "d1", "dev1", "ch1", "OldName", false, {}⟩], 5⟩ :
        IpcStore).channels.map (·.id)).Nodup ∧
    (∀ c ∈ (⟨[⟨"d1", "dev1", 0⟩],
       [⟨"cOld", "d1", "dev1", "chX", "Old", true, {}⟩,
        ⟨"cUpd", "d1", "dev1", "ch1", "OldName", false, {}⟩], 5⟩ :
        IpcStore).channels, ∀ n, 5 ≤ n → n < 5 + 2 → c.id ≠ genChannelID n) ∧
    ((∀ r ∈ ([⟨"", "", "dev1", "ch1", "Cam1", true, {}⟩,
              ⟨"", "", "dev1", "ch2", "Cam2", false, {}⟩] : List IpcChannel),
        ∃ c ∈ (saveChannels
            ⟨[⟨"d1", "dev1", 0⟩],
             [⟨"cOld", "d1", "dev1", "chX", "Old", true, {}⟩,
              ⟨"cUpd", "d1", "dev1", "ch1", "OldName", false, {}⟩], 5⟩
            [⟨"", "", "dev1", "ch1", "Cam1", true, {}⟩,
             ⟨"", "", "dev1", "ch2", "Cam2", false, {}⟩]).channels,
          c.deviceID = "dev1" ∧ c.channelID = r.channelID ∧ c.name = r.name ∧
          c.isOnline = r.isOnline ∧ c.ext = r.ext ∧
          (lookupLastByChannelID
              ((⟨[⟨"d1", "dev1", 0⟩],
                 [⟨"cOld", "d1", "dev1", "chX", "Old", true, {}⟩,
                  ⟨"cUpd", "d1", "dev1", "ch1", "OldName", false, {}⟩], 5⟩ :
                  IpcStore).channels.filter fun c =>
                decide (c.deviceID = "dev1"))
              r.channelID = none →
            ∀ c0 ∈ (⟨[⟨"d1", "dev1", 0⟩],
               [⟨"cOld", "d1", "dev1", "chX", "Old", true, {}⟩,
                ⟨"cUpd", "d1", "dev1", "ch1", "OldName", false, {}⟩], 5⟩ :
                IpcStore).channels, c.id ≠ c0.id)) ∧
     (∀ c ∈ (⟨[⟨"d1", "dev1", 0⟩],
        [⟨"cOld", "d1", "dev1", "chX", "Old", true, {}⟩,
         ⟨"cUpd", "d1", "dev1", "ch1", "OldName", false, {}⟩], 5⟩ :
         IpcStore).channels, c.deviceID = "dev1" →
        c.channelID ∉ ([⟨"", "", "dev1", "ch1", "Cam1", true, {}⟩,
                        ⟨"", "", "dev1", "ch2", "Cam2", false, {}⟩] :
                        List IpcChannel).map (·.channelID) →
        ∃ c' ∈ (saveChannels
            ⟨[⟨"d1", "dev1", 0⟩],
             [⟨"cOld", "d1", "dev1", "chX", "Old", true, {}⟩,
              ⟨"cUpd", "d1", "dev1", "ch1", "OldName", false, {}⟩], 5⟩
            [⟨"", "", "dev1", "ch1", "Cam1", true, {}⟩,
             ⟨"", "", "dev1", "ch2", "Cam2", false, {}⟩]).channels,
          c'.id = c.id ∧ c'.channelID = c.channelID ∧ c'.isOnline = false)) :=
  ⟨by decide, by decide, by decide, by decide,
   by
     intro c hc n h5 h7
     have hn : n = 5 ∨ n = 6 := by omega
     rcases hn with rfl | rfl <;> fin_cases hc <;> decide,
   C2_channel_merge
     ⟨[⟨"d1", "dev1", 0⟩],
      [⟨"cOld", "d1", "dev1", "chX", "Old", true, {}⟩,
       ⟨"cUpd", "d1", "dev1", "ch1", "OldName", false, {}⟩], 5⟩
     [⟨"", "", "dev1", "ch1", "Cam1", true, {}⟩,
      ⟨"", "", "dev1", "ch2", "Cam2", false, {}⟩]
     "dev1" (by decide) (by decide) (by decide) (by decide)
     (by
       intro c hc n h5 h7
       have h5' : 5 ≤ n := h5
       have h7' : n < 7 := h7
       have hn : n = 5 ∨ n = 6 := by omega
       rcases hn with rfl | rfl <;> fin_cases hc <;> decide)⟩

/-- C3 evidence: `SaveChannels` claims (in its own doc comment and the
spec) to run its five steps in one transaction, but every store call
is an independent, error-discarding operation.  With a schedule where
the channel-insert call fails, the step-1 device edit's effect
persists: the device's channel count is 1 although no channel row was
inserted — a partial effect no transaction would allow. -/
theorem saveChannels_not_atomic :
    (saveChannelsFallible ⟨[⟨"d1", "dev1", 0⟩], [], 0⟩
      [true, true, false, true, false]
      [{ deviceID := "dev1", channelID := "ch1", name := "cam",
         isOnline := true }]).channels = [] ∧
    (saveChannelsFallible ⟨[⟨"d1", "dev1", 0⟩], [], 0⟩
      [true, true, false, true, false]
      [{ deviceID := "dev1", channelID := "ch1", name := "cam",
         isOnline := true }]).devices = [⟨"d1", "dev1", 1⟩] := by
  constructor <;> rfl

/-- C10: `SaveChannels` with an empty report leaves the store
completely unchanged, the catalog emission callback discards a
zero-channel emission before calling `SaveChannels`, and hence a
device that reports an empty catalog keeps every channel it had. -/
theorem C10_empty_report_frame (s : IpcStore) (deviceID : String) :
    saveChannels s [] = s ∧
    catalogEmit s deviceID [] = (s, false) ∧
    ∀ c ∈ s.channels, c ∈ (catalogEmit s deviceID []).1.channels := by
  exact ⟨rfl, rfl, fun c hc => hc⟩

/-- The row returned by `GetDeviceByDeviceID` bears the requested
external device id. -/
theorem getDevice_deviceID (s : RegState) (d : String) :
    (getDeviceByDeviceID s d).1.deviceID = d := by
  cases h : s.store.find? fun x => decide (x.deviceID = d) with
  | none =>
    unfold getDeviceByDeviceID
    rw [h]
  | some x =>
    unfold getDeviceByDeviceID
    rw [h]
    show x.deviceID = d
    have hp := List.find?_some h
    exact of_decide_eq_true hp

/-- `GetDeviceByDeviceID` does not touch the in-memory session map. -/
theorem getDevice_memory (s : RegState) (d : String) :
    (getDeviceByDeviceID s d).2.memory = s.memory := by
  cases h : s.store.find? fun x => decide (x.deviceID = d) <;>
    · unfold getDeviceByDeviceID
      rw [h]

/-- When the device already has a row, `GetDeviceByDeviceID` leaves
the state untouched. -/
theorem getDevice_state_of_exists (s : RegState) (d : String)
    (h : ∃ x ∈ s.store, x.deviceID = d) :
    (getDeviceByDeviceID s d).2 = s := by
  obtain ⟨x, hx, hxd⟩ := h
  cases hf : s.store.find? fun x => decide (x.deviceID = d) with
  | some y =>
    unfold getDeviceByDeviceID
    rw [hf]
  | none =>
    exfalso
    have := List.find?_eq_none.mp hf x hx
    simp [hxd] at this

/-- Every pre-existing row survives `GetDeviceByDeviceID` unchanged. -/
theorem getDevice_store_super (s : RegState) (d : String) :
    ∀ x ∈ s.store, x ∈ (getDeviceByDeviceID s d).2.store := by
  intro x hx
  cases hf : s.store.find? fun y => decide (y.deviceID = d) with
  | some y =>
    unfold getDeviceByDeviceID
    rw [hf]
    exact hx
  | none =>
    unfold getDeviceByDeviceID
    rw [hf]
    exact List.mem_append_left _ hx

/-- C4 counterexample: a REGISTER with a wrong digest from an unknown
device is answered 401, but — contrary to the claim — a device row has
been auto-created in the persistent store and an in-memory session
entry allocated before authentication ran. -/
theorem C4_counterexample :
    (handlerRegister (fun _ _ _ => "expected") "12345678" "3402000000" 7 100
        ⟨[], 0, []⟩
        ⟨"34020000001320000001",
         some ⟨"3402000000", "n1", "sip:x", "bad"⟩, "3600", "", "", ""⟩).1
      = .wrongPassword ∧
    (handlerRegister (fun _ _ _ => "expected") "12345678" "3402000000" 7 100
        ⟨[], 0, []⟩
        ⟨"34020000001320000001",
         some ⟨"3402000000", "n1", "sip:x", "bad"⟩, "3600", "", "", ""⟩).2.store.length
      = 1 ∧
    (handlerRegister (fun _ _ _ => "expected") "12345678" "3402000000" 7 100
        ⟨[], 0, []⟩
        ⟨"34020000001320000001",
         some ⟨"3402000000", "n1", "sip:x", "bad"⟩, "3600", "", "", ""⟩).2.memory
      = ["34020000001320000001"] := by
  refine ⟨?_, ?_, ?_⟩ <;> rfl

/-- C4 (amended): a REGISTER whose digest response does not match the
expected digest is answered 401 and no existing device row is updated
(when a row for the device existed, the store is exactly unchanged);
however, when the device was unknown, `GetDeviceByDeviceID` has
already auto-created its row, and an in-memory session entry has been
allocated via `LoadOrStore`, both before authentication. -/
theorem C4_register_wrong_digest
    (calcResp : SipAuth → String → String → String)
    (cfgPassword domain : String) (seed now : Nat)
    (s : RegState) (req : RegRequest) (a : SipAuth)
    (hfil : filterUnknowDevices req.deviceID = true)
    (hauth : req.auth = some a)
    (hpw : resolvePassword (getDeviceByDeviceID s req.deviceID).1.password
        cfgPassword ≠ "")
    (hmm : calcResp a (getDeviceByDeviceID s req.deviceID).1.deviceID
        (resolvePassword (getDeviceByDeviceID s req.deviceID).1.password
          cfgPassword) ≠ a.response) :
    (handlerRegister calcResp cfgPassword domain seed now s req).1
      = .wrongPassword ∧
    (handlerRegister calcResp cfgPassword domain seed now s req).2.store
      = (getDeviceByDeviceID s req.deviceID).2.store ∧
    (handlerRegister calcResp cfgPassword domain seed now s req).2.memory
      = loadOrStore s.memory req.deviceID ∧
    (∀ x ∈ s.store,
      x ∈ (handlerRegister calcResp cfgPassword domain seed now s req).2.store) ∧
    ((∃ x ∈ s.store, x.deviceID = req.deviceID) →
      (handlerRegister calcResp cfgPassword domain seed now s req).2.store
        = s.store) := by
  have hout : handlerRegister calcResp cfgPassword domain seed now s req
      = (.wrongPassword,
         allocSession (getDeviceByDeviceID s req.deviceID).2 req.deviceID) := by
    unfold handlerRegister
    rw [if_pos hfil, if_neg hpw, hauth]
    simp only [if_neg hmm]
  rw [hout]
  refine ⟨rfl, rfl, ?_, ?_, ?_⟩
  · show loadOrStore (getDeviceByDeviceID s req.deviceID).2.memory req.deviceID
      = loadOrStore s.memory req.deviceID
    rw [getDevice_memory]
  · intro x hx
    exact getDevice_store_super s req.deviceID x hx
  · intro hex
    show (getDeviceByDeviceID s req.deviceID).2.store = s.store
    rw [getDevice_state_of_exists s req.deviceID hex]

/-- Witness for C4 at a concrete input: device `34020000001320000001`
already registered with password `"12345678"`, presenting a digest that
does not match. -/
theorem C4_register_wrong_digest_witness :
    filterUnknowDevices "34020000001320000001" = true ∧
    (⟨"34020000001320000001", some ⟨"3402000000", "n1", "sip:x", "bad"⟩,
      "3600", "", "", ""⟩ : RegRequest).auth
      = some ⟨"3402000000", "n1", "sip:x", "bad"⟩ ∧
    resolvePassword
      (getDeviceByDeviceID
        ⟨[⟨"gb0", "34020000001320000001", "12345678", false, 0, 0, 0, "", "", ""⟩],
         1, []⟩ "34020000001320000001").1.password "pw" ≠ "" ∧
    (fun _ _ _ => "expected" : SipAuth → String → String → String)
        ⟨"3402000000", "n1", "sip:x", "bad"⟩
        (getDeviceByDeviceID
          ⟨[⟨"gb0", "34020000001320000001", "12345678", false, 0, 0, 0, "", "", ""⟩],
           1, []⟩ "34020000001320000001").1.deviceID
        (resolvePassword
          (getDeviceByDeviceID
            ⟨[⟨"gb0", "34020000001320000001", "12345678", false, 0, 0, 0, "", "", ""⟩],
             1, []⟩ "34020000001320000001").1.password "pw")
      ≠ (⟨"3402000000", "n1", "sip:x", "bad"⟩ : SipAuth).response ∧
    ((handlerRegister (fun _ _ _ => "expected") "pw" "3402000000" 7 100
        ⟨[⟨"gb0", "34020000001320000001", "12345678", false, 0, 0, 0, "", "", ""⟩],
         1, []⟩
        ⟨"34020000001320000001", some ⟨"3402000000", "n1", "sip:x", "bad"⟩,
         "3600", "", "", ""⟩).1 = .wrongPassword ∧
     (handlerRegister (fun _ _ _ => "expected") "pw" "3402000000" 7 100
        ⟨[⟨"gb0", "34020000001320000001", "12345678", false, 0, 0, 0, "", "", ""⟩],
         1, []⟩
        ⟨"34020000001320000001", some ⟨"3402000000", "n1", "sip:x", "bad"⟩,
         "3600", "", "", ""⟩).2.store
       = (getDeviceByDeviceID
          ⟨[⟨"gb0", "34020000001320000001", "12345678", false, 0, 0, 0, "", "", ""⟩],
           1, []⟩ "34020000001320000001").2.store ∧
     (handlerRegister (fun _ _ _ => "expected") "pw" "3402000000" 7 100
        ⟨[⟨"gb0", "34020000001320000001", "12345678", false, 0, 0, 0, "", "", ""⟩],
         1, []⟩
        ⟨"34020000001320000001", some ⟨"3402000000", "n1", "sip:x", "bad"⟩,
         "3600", "", "", ""⟩).2.memory
       = loadOrStore [] "34020000001320000001" ∧
     (∀ x ∈ ([⟨"gb0", "34020000001320000001", "12345678", false, 0, 0, 0, "", "", ""⟩] :
         List RegDevice),
       x ∈ (handlerRegister (fun _ _ _ => "expected") "pw" "3402000000" 7 100
          ⟨[⟨"gb0", "34020000001320000001", "12345678", false, 0, 0, 0, "", "", ""⟩],
           1, []⟩
          ⟨"34020000001320000001", some ⟨"3402000000", "n1", "sip:x", "bad"⟩,
           "3600", "", "", ""⟩).2.store) ∧
     ((∃ x ∈ ([⟨"gb0", "34020000001320000001", "12345678", false, 0, 0, 0, "", "", ""⟩] :
         List RegDevice), x.deviceID = "34020000001320000001") →
       (handlerRegister (fun _ _ _ => "expected") "pw" "3402000000" 7 100
          ⟨[⟨"gb0", "34020000001320000001", "12345678", false, 0, 0, 0, "", "", ""⟩],
           1, []⟩
          ⟨"34020000001320000001", some ⟨"3402000000", "n1", "sip:x", "bad"⟩,
           "3600", "", "", ""⟩).2.store
         = [⟨"gb0", "34020000001320000001", "12345678", false, 0, 0, 0, "", "", ""⟩])) :=
  ⟨by decide, rfl, by decide, by decide,
   C4_register_wrong_digest (fun _ _ _ => "expected") "pw" "3402000000" 7 100
     ⟨[⟨"gb0", "34020000001320000001", "12345678", false, 0, 0, 0, "", "", ""⟩],
      1, []⟩
     ⟨"34020000001320000001", some ⟨"3402000000", "n1", "sip:x", "bad"⟩,
      "3600", "", "", ""⟩
     ⟨"3402000000", "n1", "sip:x", "bad"⟩
     (by decide) rfl (by decide) (by decide)⟩

/-- The spec-modelled `RandString` really produces strings of the
requested length. -/
theorem sipRandString_length (n seed : Nat) :
    (sipRandString n seed).length = n := by
  simp [sipRandString, String.length]

/-- `registerAfterAuth` always replies `200 OK`. -/
theorem registerAfterAuth_reply (s : RegState) (req : RegRequest) (now : Nat) :
    (registerAfterAuth s req now).1 = .ok := by
  unfold registerAfterAuth
  by_cases h : req.expiresHeader = "0"
  · rw [if_pos h]
  · rw [if_neg h]

/-- `find?` skips a prefix in which it finds nothing. -/
theorem find?_append_of_none {α : Type} (p : α → Bool) (l1 l2 : List α)
    (h : l1.find? p = none) : (l1 ++ l2).find? p = l2.find? p := by
  induction l1 with
  | nil => rfl
  | cons x xs ih =>
    cases hx : p x with
    | true =>
      rw [List.find?_cons_of_pos _ hx] at h
      exact absurd h (by simp)
    | false =>
      have hx' : ¬ p x = true := by simp [hx]
      rw [List.find?_cons_of_neg _ hx'] at h
      rw [List.cons_append, List.find?_cons_of_neg _ hx']
      exact ih h

/-- Looking a device up in a row-wise edited table finds the edited
image of the original row, provided the edit preserves device ids. -/
theorem find?_updateRow (l : List RegDevice) (target : String)
    (f : RegDevice → RegDevice) (hf : ∀ x, (f x).deviceID = x.deviceID) :
    (l.map fun x => if x.deviceID = target then f x else x).find?
        (fun x => decide (x.deviceID = target))
      = (l.find? fun x => decide (x.deviceID = target)).map
          (fun x => if x.deviceID = target then f x else x) := by
  induction l with
  | nil => rfl
  | cons x xs ih =>
    by_cases hx : x.deviceID = target
    · have h1 : (if x.deviceID = target then f x else x) = f x := if_pos hx
      have h2 : decide ((f x).deviceID = target) = true := by
        rw [hf x]; exact decide_eq_true hx
      have h3 : decide (x.deviceID = target) = true := decide_eq_true hx
      rw [List.map_cons, h1]
      rw [List.find?_cons, List.find?_cons, h2, h3]
      simp [h1]
    · have h1 : (if x.deviceID = target then f x else x) = x := if_neg hx
      have h3 : decide (x.deviceID = target) = false := decide_eq_false hx
      rw [List.map_cons, h1]
      rw [List.find?_cons, List.find?_cons, h3]
      simpa using ih

/-- Row-wise edits that keep device ids and passwords leave the
effective password unchanged. -/
theorem eff_update (s : RegState) (cfg d : String) (f : RegDevice → RegDevice)
    (hfc : ∀ x, (f x).deviceID = x.deviceID)
    (hfp : ∀ x, (f x).password = x.password) :
    effectivePassword (updateDeviceRow s d f).store cfg d
      = effectivePassword s.store cfg d := by
  unfold effectivePassword updateDeviceRow
  rw [find?_updateRow s.store d f hfc]
  cases hf : s.store.find? fun x => decide (x.deviceID = d) with
  | none => rfl
  | some x =>
    have hp := List.find?_some hf
    have hx : x.deviceID = d := of_decide_eq_true hp
    simp only [Option.map_some', Option.getD_some, if_pos hx, hfp x]

/-- The auto-creating row fetch leaves the effective password
unchanged (a freshly created row carries an empty password, which
resolves to the configured password exactly as a missing row does). -/
theorem eff_getDevice (s : RegState) (cfg d : String) :
    effectivePassword (getDeviceByDeviceID s d).2.store cfg d
      = effectivePassword s.store cfg d := by
  cases hf : s.store.find? fun x => decide (x.deviceID = d) with
  | some x =>
    unfold getDeviceByDeviceID
    rw [hf]
  | none =>
    unfold getDeviceByDeviceID
    rw [hf]
    show effectivePassword
      (s.store ++ [{ id := genDeviceID s.nextID, deviceID := d }]) cfg d
      = effectivePassword s.store cfg d
    unfold effectivePassword
    rw [find?_append_of_none _ _ _ hf, hf]
    have : ([({ id := genDeviceID s.nextID, deviceID := d } : RegDevice)].find?
        fun x => decide (x.deviceID = d))
        = some { id := genDeviceID s.nextID, deviceID := d } :=
      List.find?_cons_of_pos _ (decide_eq_true rfl)
    rw [this]
    rfl

/-- `registerAfterAuth` leaves the effective password unchanged. -/
theorem eff_afterAuth (s : RegState) (req : RegRequest) (now : Nat)
    (cfg : String) :
    effectivePassword (registerAfterAuth s req now).2.store cfg req.deviceID
      = effectivePassword s.store cfg req.deviceID := by
  unfold registerAfterAuth
  by_cases h : req.expiresHeader = "0"
  · rw [if_pos h]
    exact eff_update s cfg req.deviceID _ (fun x => rfl) (fun x => rfl)
  · rw [if_neg h]
    exact eff_update s cfg req.deviceID _ (fun x => rfl) (fun x => rfl)

/-- `handlerRegister` never changes the password a later REGISTER of
the same device will be checked against. -/
theorem handlerRegister_preserves_eff
    (calcResp : SipAuth → String → String → String)
    (cfgPassword domain : String) (seed now : Nat)
    (s : RegState) (req : RegRequest) :
    effectivePassword
        (handlerRegister calcResp cfgPassword domain seed now s req).2.store
        cfgPassword req.deviceID
      = effectivePassword s.store cfgPassword req.deviceID := by
  unfold handlerRegister
  by_cases hfil : filterUnknowDevices req.deviceID = true
  · rw [if_pos hfil]
    have hbase : effectivePassword
        (allocSession (getDeviceByDeviceID s req.deviceID).2 req.deviceID).store
        cfgPassword req.deviceID
        = effectivePassword s.store cfgPassword req.deviceID := by
      show effectivePassword (getDeviceByDeviceID s req.deviceID).2.store
          cfgPassword req.deviceID = _
      exact eff_getDevice s cfgPassword req.deviceID
    by_cases hP : resolvePassword (getDeviceByDeviceID s req.deviceID).1.password
        cfgPassword = ""
    · rw [if_pos hP, eff_afterAuth, hbase]
    · rw [if_neg hP]
      cases hauth : req.auth with
      | none => exact hbase
      | some a =>
        by_cases hc : calcResp a (getDeviceByDeviceID s req.deviceID).1.deviceID
            (resolvePassword (getDeviceByDeviceID s req.deviceID).1.password
              cfgPassword) = a.response
        · simp only [if_pos hc]
          rw [eff_afterAuth, hbase]
        · simp only [if_neg hc]
          exact hbase
  · rw [if_neg hfil]

/-- The resolved password of the fetched row is the effective password
of the original store. -/
theorem getDevice_resolvedPassword (s : RegState) (cfg d : String) :
    resolvePassword (getDeviceByDeviceID s d).1.password cfg
      = effectivePassword s.store cfg d := by
  cases hf : s.store.find? fun x => decide (x.deviceID = d) with
  | some x =>
    unfold getDeviceByDeviceID effectivePassword
    rw [hf]
    rfl
  | none =>
    unfold getDeviceByDeviceID effectivePassword
    rw [hf]
    rfl

/-- The registrar accepts a REGISTER exactly when the device id passes
the gate and either authentication is disabled (empty effective
password) or the client-supplied digest matches the recomputed one —
no stored nonce, challenge record or clock is consulted. -/
theorem handlerRegister_ok_iff
    (calcResp : SipAuth → String → String → String)
    (cfgPassword domain : String) (seed now : Nat)
    (s : RegState) (req : RegRequest) :
    (handlerRegister calcResp cfgPassword domain seed now s req).1 = .ok ↔
      (filterUnknowDevices req.deviceID = true ∧
       (effectivePassword s.store cfgPassword req.deviceID = "" ∨
        ∃ a, req.auth = some a ∧
          calcResp a req.deviceID
            (effectivePassword s.store cfgPassword req.deviceID)
            = a.response)) := by
  unfold handlerRegister
  by_cases hfil : filterUnknowDevices req.deviceID = true
  · rw [if_pos hfil]
    rw [show resolvePassword (getDeviceByDeviceID s req.deviceID).1.password
          cfgPassword = effectivePassword s.store cfgPassword req.deviceID from
        getDevice_resolvedPassword s cfgPassword req.deviceID]
    by_cases hP : effectivePassword s.store cfgPassword req.deviceID = ""
    · rw [if_pos hP]
      exact iff_of_true (registerAfterAuth_reply _ _ _)
        ⟨hfil, Or.inl hP⟩
    · rw [if_neg hP]
      cases hauth : req.auth with
      | none =>
        refine iff_of_false (by simp) ?_
        rintro ⟨-, hor⟩
        rcases hor with h | ⟨a, ha, -⟩
        · exact hP h
        · simp [hauth] at ha
      | some a =>
        rw [getDevice_deviceID]
        by_cases hc : calcResp a req.deviceID
            (effectivePassword s.store cfgPassword req.deviceID) = a.response
        · simp only [if_pos hc]
          exact iff_of_true (registerAfterAuth_reply _ _ _)
            ⟨hfil, Or.inr ⟨a, rfl, hc⟩⟩
        · simp only [if_neg hc]
          refine iff_of_false (by simp) ?_
          rintro ⟨-, hor⟩
          rcases hor with h | ⟨a', ha', hc'⟩
          · exact hP h
          · rw [show a' = a from (Option.some.inj ha'.symm)] at hc'
            exact hc hc'
  · rw [if_neg hfil]
    refine iff_of_false (by simp) ?_
    rintro ⟨h, -⟩
    exact hfil h

/-- C9 counterexample: device `34020000001320000001` registers with a
digest over nonce `"NONCE"` at time 0 and is accepted; a second
REGISTER reusing exactly the same nonce and digest 1000 s later (far
past any 30 s window) is accepted again instead of being re-challenged
— no challenge record exists. -/
theorem C9_counterexample :
    (handlerRegister (fun a u p => u ++ p ++ a.nonce) "12345678" "3402000000"
        1 0 ⟨[], 0, []⟩
        ⟨"34020000001320000001",
         some ⟨"3402000000", "NONCE", "sip:x",
               "3402000000132000000112345678NONCE"⟩, "3600", "", "", ""⟩).1
      = .ok ∧
    (handlerRegister (fun a u p => u ++ p ++ a.nonce) "12345678" "3402000000"
        2 1000
        (handlerRegister (fun a u p => u ++ p ++ a.nonce) "12345678"
          "3402000000" 1 0 ⟨[], 0, []⟩
          ⟨"34020000001320000001",
           some ⟨"3402000000", "NONCE", "sip:x",
                 "3402000000132000000112345678NONCE"⟩, "3600", "", "", ""⟩).2
        ⟨"34020000001320000001",
         some ⟨"3402000000", "NONCE", "sip:x",
               "3402000000132000000112345678NONCE"⟩, "3600", "", "", ""⟩).1
      = .ok := by
  exact ⟨rfl, rfl⟩

/-- C9 (amended): every 401 challenge carries a freshly generated
32-character nonce, but the nonce is never recorded: acceptance of a
REGISTER depends only on the device-id gate, the stored password and
the client-supplied digest (no challenge record, nonce store or clock
is consulted), so once a REGISTER with a given digest is accepted, an
identical REGISTER reusing the same nonce is accepted again at any
later time rather than being re-challenged. -/
theorem C9_nonce_reuse
    (calcResp : SipAuth → String → String → String)
    (cfgPassword domain : String) (seed1 seed2 now1 now2 : Nat)
    (s : RegState) (req : RegRequest)
    (hok : (handlerRegister calcResp cfgPassword domain seed1 now1 s req).1
      = .ok) :
    ((sipRandString 32 seed1).length = 32) ∧
    ((handlerRegister calcResp cfgPassword domain seed1 now1 s req).1 = .ok ↔
      (filterUnknowDevices req.deviceID = true ∧
       (effectivePassword s.store cfgPassword req.deviceID = "" ∨
        ∃ a, req.auth = some a ∧
          calcResp a req.deviceID
            (effectivePassword s.store cfgPassword req.deviceID)
            = a.response))) ∧
    (handlerRegister calcResp cfgPassword domain seed2 now2
        (handlerRegister calcResp cfgPassword domain seed1 now1 s req).2
        req).1 = .ok := by
  refine ⟨sipRandString_length 32 seed1,
    handlerRegister_ok_iff calcResp cfgPassword domain seed1 now1 s req, ?_⟩
  have h1 := (handlerRegister_ok_iff calcResp cfgPassword domain
    seed1 now1 s req).mp hok
  apply (handlerRegister_ok_iff calcResp cfgPassword domain seed2 now2 _ req).mpr
  rw [handlerRegister_preserves_eff]
  exact h1

/-- Witness for C9 at a concrete input: the accepted REGISTER of the
counterexample scenario, with the replay at time 2000 s. -/
theorem C9_nonce_reuse_witness :
    (handlerRegister (fun a u p => u ++ p ++ a.nonce) "12345678" "3402000000"
        3 10 ⟨[], 0, []⟩
        ⟨"34020000001320000001",
         some ⟨"3402000000", "NONCE", "sip:x",
               "3402000000132000000112345678NONCE"⟩, "3600", "", "", ""⟩).1
      = .ok ∧
    (((sipRandString 32 3).length = 32) ∧
     ((handlerRegister (fun a u p => u ++ p ++ a.nonce) "12345678" "3402000000"
          3 10 ⟨[], 0, []⟩
          ⟨"34020000001320000001",
           some ⟨"3402000000", "NONCE", "sip:x",
                 "3402000000132000000112345678NONCE"⟩, "3600", "", "", ""⟩).1
        = .ok ↔
       (filterUnknowDevices "34020000001320000001" = true ∧
        (effectivePassword ([] : List RegDevice) "12345678"
            "34020000001320000001" = "" ∨
         ∃ a, (⟨"34020000001320000001",
               some ⟨"3402000000", "NONCE", "sip:x",
                     "3402000000132000000112345678NONCE"⟩,
               "3600", "", "", ""⟩ : RegRequest).auth = some a ∧
           (fun a u p => u ++ p ++ a.nonce : SipAuth → String → String → String)
               a "34020000001320000001"
               (effectivePassword ([] : List RegDevice) "12345678"
                 "34020000001320000001")
             = a.response))) ∧
     (handlerRegister (fun a u p => u ++ p ++ a.nonce) "12345678" "3402000000"
        4 2000
        (handlerRegister (fun a u p => u ++ p ++ a.nonce) "12345678"
          "3402000000" 3 10 ⟨[], 0, []⟩
          ⟨"34020000001320000001",
           some ⟨"3402000000", "NONCE", "sip:x",
                 "3402000000132000000112345678NONCE"⟩, "3600", "", "", ""⟩).2
        ⟨"34020000001320000001",
         some ⟨"3402000000", "NONCE", "sip:x",
               "3402000000132000000112345678NONCE"⟩, "3600", "", "", ""⟩).1
       = .ok) :=
  ⟨rfl,
   C9_nonce_reuse (fun a u p => u ++ p ++ a.nonce) "12345678" "3402000000"
     3 4 10 2000 ⟨[], 0, []⟩
     ⟨"34020000001320000001",
      some ⟨"3402000000", "NONCE", "sip:x",
            "3402000000132000000112345678NONCE"⟩, "3600", "", "", ""⟩
     rfl⟩

/-- Dropping an element that fails the filter strictly shrinks it. -/
theorem length_filter_lt_of_mem {α : Type} (p : α → Bool) (l : List α)
    (x : α) (hx : x ∈ l) (hpx : p x = false) :
    (l.filter p).length < l.length := by
  induction l with
  | nil => cases hx
  | cons y ys ih =>
    rcases List.mem_cons.mp hx with rfl | hx'
    · rw [List.filter_cons_of_neg (by simp [hpx])]
      exact Nat.lt_succ_of_le (List.length_filter_le p ys)
    · cases hpy : p y with
      | true =>
        rw [List.filter_cons_of_pos hpy]
        simpa using ih hx'
      | false =>
        rw [List.filter_cons_of_neg (by simp [hpy])]
        exact Nat.lt_succ_of_lt (ih hx')

/-- Membership in the sorted-insertion helper. -/
theorem mem_insertByStartedAt (r x : Recording) (l : List Recording) :
    x ∈ insertByStartedAt r l ↔ x = r ∨ x ∈ l := by
  induction l with
  | nil => simp [insertByStartedAt]
  | cons y ys ih =>
    unfold insertByStartedAt
    by_cases h : r.startedAt ≤ y.startedAt
    · rw [if_pos h]
      simp
    · rw [if_neg h]
      simp only [List.mem_cons, ih]
      tauto

/-- Sorted insertion preserves ascending order by `started_at`. -/
theorem pairwise_insertByStartedAt (r : Recording) (l : List Recording)
    (hl : l.Pairwise fun a b => a.startedAt ≤ b.startedAt) :
    (insertByStartedAt r l).Pairwise fun a b => a.startedAt ≤ b.startedAt := by
  induction l with
  | nil => simp [insertByStartedAt]
  | cons y ys ih =>
    unfold insertByStartedAt
    rcases List.pairwise_cons.mp hl with ⟨hy, hys⟩
    by_cases h : r.startedAt ≤ y.startedAt
    · rw [if_pos h]
      refine List.pairwise_cons.mpr ⟨?_, hl⟩
      intro b hb
      rcases List.mem_cons.mp hb with rfl | hb'
      · exact h
      · exact le_trans h (hy b hb')
    · rw [if_neg h]
      refine List.pairwise_cons.mpr ⟨?_, ih hys⟩
      intro b hb
      rcases (mem_insertByStartedAt r b ys).mp hb with rfl | hb'
      · omega
      · exact hy b hb'

/-- Sorting by `started_at` keeps exactly the same elements. -/
theorem mem_sortByStartedAt (x : Recording) (l : List Recording) :
    x ∈ sortByStartedAt l ↔ x ∈ l := by
  induction l with
  | nil => simp [sortByStartedAt]
  | cons y ys ih =>
    simp [sortByStartedAt, mem_insertByStartedAt, ih]

/-- The sort really is ascending by `started_at`. -/
theorem pairwise_sortByStartedAt (l : List Recording) :
    (sortByStartedAt l).Pairwise fun a b => a.startedAt ≤ b.startedAt := by
  induction l with
  | nil => simp [sortByStartedAt]
  | cons y ys ih => exact pairwise_insertByStartedAt y _ ih

/-- In a pairwise-ordered list, everything in a prefix relates to
everything after it. -/
theorem pairwise_take_drop {R : Recording → Recording → Prop}
    (l : List Recording) (n : Nat) (h : l.Pairwise R)
    (x y : Recording) (hx : x ∈ l.take n) (hy : y ∈ l.drop n) : R x y := by
  have happ : (l.take n ++ l.drop n).Pairwise R := by
    rw [List.take_append_drop]
    exact h
  exact (List.pairwise_append.mp happ).2.2 x hx y hy

/-- Row membership after a deletion round. -/
theorem mem_deleteRecs_rows (b : List Recording) (st : RecState)
    (r : Recording) :
    r ∈ (deleteRecs b st).rows ↔ r ∈ st.rows ∧ r.id ∉ b.map (·.id) := by
  unfold deleteRecs
  simp [List.mem_filter]

/-- File membership after a deletion round. -/
theorem mem_deleteRecs_files (b : List Recording) (st : RecState)
    (f : String) :
    f ∈ (deleteRecs b st).files ↔ f ∈ st.files ∧ f ∉ b.map (·.path) := by
  unfold deleteRecs
  simp [List.mem_filter]

/-- Deletion rounds preserve uniqueness of row ids. -/
theorem nodup_ids_deleteRecs (b : List Recording) (st : RecState)
    (h : (st.rows.map (·.id)).Nodup) :
    ((deleteRecs b st).rows.map (·.id)).Nodup := by
  unfold deleteRecs
  exact h.sublist (List.Sublist.map _ (List.filter_sublist _))

/-- The batch-delete loop only ever removes rows. -/
theorem bdlGo_rows_subset (cond : Recording → Bool) :
    ∀ (fuel : Nat) (st : RecState) (r : Recording),
      r ∈ (batchDeleteGo cond fuel st).rows → r ∈ st.rows := by
  intro fuel
  induction fuel with
  | zero => intro st r h; exact h
  | succ n ih =>
    intro st r h
    simp only [batchDeleteGo] at h
    split at h
    · exact h
    · exact ((mem_deleteRecs_rows _ _ _).mp (ih _ _ h)).1

/-- The batch-delete loop only ever removes files. -/
theorem bdlGo_files_subset (cond : Recording → Bool) :
    ∀ (fuel : Nat) (st : RecState) (f : String),
      f ∈ (batchDeleteGo cond fuel st).files → f ∈ st.files := by
  intro fuel
  induction fuel with
  | zero => intro st f h; exact h
  | succ n ih =>
    intro st f h
    simp only [batchDeleteGo] at h
    split at h
    · exact h
    · exact ((mem_deleteRecs_files _ _ _).mp (ih _ _ h)).1

/-- With enough fuel, every row matching the condition is removed by
the batch-delete loop, together with its file. -/
theorem bdlGo_gone (cond : Recording → Bool) :
    ∀ (fuel : Nat) (st : RecState),
      (st.rows.filter cond).length ≤ fuel →
      (st.rows.map (·.id)).Nodup →
      ∀ r ∈ st.rows, cond r = true →
        (∀ r' ∈ (batchDeleteGo cond fuel st).rows, r'.id ≠ r.id) ∧
        r.path ∉ (batchDeleteGo cond fuel st).files := by
  intro fuel
  induction fuel with
  | zero =>
    intro st hfuel hnodup r hr hcond
    exfalso
    have hmem : r ∈ st.rows.filter cond := List.mem_filter.mpr ⟨hr, hcond⟩
    have : st.rows.filter cond = [] := List.length_eq_zero.mp (by omega)
    rw [this] at hmem
    exact absurd hmem (List.not_mem_nil r)
  | succ n ih =>
    intro st hfuel hnodup r hr hcond
    have hrfil : r ∈ st.rows.filter cond := List.mem_filter.mpr ⟨hr, hcond⟩
    have hfoundne : (st.rows.filter cond).take expiredBatchSize ≠ [] := by
      intro h
      rcases List.take_eq_nil_iff.mp h with h100 | hnil
      · exact absurd h100 (by norm_num [expiredBatchSize])
      · rw [hnil] at hrfil
        exact absurd hrfil (List.not_mem_nil r)
    simp only [batchDeleteGo]
    rw [if_neg hfoundne]
    by_cases hid : r.id ∈ ((st.rows.filter cond).take expiredBatchSize).map (·.id)
    · constructor
      · intro r' hr' heq
        have hr's := bdlGo_rows_subset cond n _ r' hr'
        exact ((mem_deleteRecs_rows _ _ _).mp hr's).2 (heq ▸ hid)
      · intro hpath
        have hpf := bdlGo_files_subset cond n _ _ hpath
        apply ((mem_deleteRecs_files _ _ _).mp hpf).2
        obtain ⟨d, hd, hdid⟩ := List.mem_map.mp hid
        have hdrows : d ∈ st.rows :=
          List.mem_of_mem_filter (List.take_subset _ _ hd)
        have hdr : d = r := List.inj_on_of_nodup_map hnodup hdrows hr hdid
        exact List.mem_map_of_mem _ (hdr ▸ hd)
    · have hr' : r ∈ (deleteRecs ((st.rows.filter cond).take expiredBatchSize)
          st).rows := (mem_deleteRecs_rows _ _ _).mpr ⟨hr, hid⟩
      have hnodup' := nodup_ids_deleteRecs
        ((st.rows.filter cond).take expiredBatchSize) st hnodup
      have hstrict : ((deleteRecs ((st.rows.filter cond).take
          expiredBatchSize) st).rows.filter cond).length
          < (st.rows.filter cond).length := by
        unfold deleteRecs
        rw [List.filter_comm]
        obtain ⟨x, hxfound⟩ :=
          List.exists_mem_of_ne_nil _ hfoundne
        apply length_filter_lt_of_mem _ _ x (List.take_subset _ _ hxfound)
        simp only [decide_eq_false_iff_not, not_not]
        exact List.mem_map_of_mem _ hxfound
      exact ih _ (by omega) hnodup' r hr' hcond

/-- Rows not matching the condition survive the batch-delete loop
(given unique ids). -/
theorem bdlGo_frame (cond : Recording → Bool) :
    ∀ (fuel : Nat) (st : RecState),
      (st.rows.map (·.id)).Nodup →
      ∀ r ∈ st.rows, cond r = false →
        r ∈ (batchDeleteGo cond fuel st).rows := by
  intro fuel
  induction fuel with
  | zero => intro st _ r hr _; exact hr
  | succ n ih =>
    intro st hnodup r hr hcond
    simp only [batchDeleteGo]
    by_cases hfound : (st.rows.filter cond).take expiredBatchSize = []
    · rw [if_pos hfound]
      exact hr
    · rw [if_neg hfound]
      have hid : r.id ∉ ((st.rows.filter cond).take expiredBatchSize).map
          (·.id) := by
        intro hmem
        obtain ⟨d, hd, hdid⟩ := List.mem_map.mp hmem
        have hdfil : d ∈ st.rows.filter cond := List.take_subset _ _ hd
        have hdrows : d ∈ st.rows := List.mem_of_mem_filter hdfil
        have hdr : d = r := List.inj_on_of_nodup_map hnodup hdrows hr hdid
        have := List.of_mem_filter hdfil
        rw [hdr, hcond] at this
        exact absurd this (by simp)
      exact ih _ (nodup_ids_deleteRecs _ _ hnodup) r
        ((mem_deleteRecs_rows _ _ _).mpr ⟨hr, hid⟩) hcond

/-- Unfolding equation for one round of the disk-sweep loop. -/
theorem diskLoop_succ (u : List Recording → Bool) (target fuel freed : Nat)
    (st : RecState) :
    diskLoop u target (fuel + 1) freed st =
      if target ≤ freed then (st, [])
      else if (sortByStartedAt st.rows).take diskBatchSize = [] then (st, [])
      else if u (deleteRecs ((sortByStartedAt st.rows).take diskBatchSize)
          st).rows then
        (deleteRecs ((sortByStartedAt st.rows).take diskBatchSize) st,
         (sortByStartedAt st.rows).take diskBatchSize)
      else
        ((diskLoop u target fuel
            (freed + ((((sortByStartedAt st.rows).take diskBatchSize)).map
              (·.size)).sum)
            (deleteRecs ((sortByStartedAt st.rows).take diskBatchSize) st)).1,
         (sortByStartedAt st.rows).take diskBatchSize ++
           (diskLoop u target fuel
             (freed + ((((sortByStartedAt st.rows).take diskBatchSize)).map
               (·.size)).sum)
             (deleteRecs ((sortByStartedAt st.rows).take diskBatchSize)
               st)).2) := rfl

/-- The disk-sweep loop only ever removes rows. -/
theorem dl_rows_subset (u : List Recording → Bool) (target : Nat) :
    ∀ (fuel freed : Nat) (st : RecState) (r : Recording),
      r ∈ (diskLoop u target fuel freed st).1.rows → r ∈ st.rows := by
  intro fuel
  induction fuel with
  | zero => intro freed st r h; exact h
  | succ n ih =>
    intro freed st r h
    rw [diskLoop_succ] at h
    split_ifs at h with h1 h2 h3
    · exact h
    · exact h
    · exact ((mem_deleteRecs_rows _ _ _).mp h).1
    · exact ((mem_deleteRecs_rows _ _ _).mp (ih _ _ r h)).1

/-- The disk-sweep loop only ever removes files. -/
theorem dl_files_subset (u : List Recording → Bool) (target : Nat) :
    ∀ (fuel freed : Nat) (st : RecState) (f : String),
      f ∈ (diskLoop u target fuel freed st).1.files → f ∈ st.files := by
  intro fuel
  induction fuel with
  | zero => intro freed st f h; exact h
  | succ n ih =>
    intro freed st f h
    rw [diskLoop_succ] at h
    split_ifs at h with h1 h2 h3
    · exact h
    · exact h
    · exact ((mem_deleteRecs_files _ _ _).mp h).1
    · exact ((mem_deleteRecs_files _ _ _).mp (ih _ _ f h)).1

/-- Anything in the oldest-50 batch started no later than anything
that survives the batch's deletion. -/
theorem batch_le_survivor (st : RecState) (d r : Recording)
    (hd : d ∈ (sortByStartedAt st.rows).take diskBatchSize)
    (hr : r ∈ (deleteRecs ((sortByStartedAt st.rows).take diskBatchSize)
      st).rows) :
    d.startedAt ≤ r.startedAt := by
  obtain ⟨hrrows, hrid⟩ := (mem_deleteRecs_rows _ _ _).mp hr
  have hrs : r ∈ sortByStartedAt st.rows :=
    (mem_sortByStartedAt _ _).mpr hrrows
  have hrnb : r ∉ (sortByStartedAt st.rows).take diskBatchSize :=
    fun h => hrid (List.mem_map_of_mem _ h)
  have hrdrop : r ∈ (sortByStartedAt st.rows).drop diskBatchSize := by
    rw [← List.take_append_drop diskBatchSize (sortByStartedAt st.rows)]
      at hrs
    rcases List.mem_append.mp hrs with h | h
    · exact absurd h hrnb
    · exact h
  exact pairwise_take_drop _ diskBatchSize
    (pairwise_sortByStartedAt st.rows) d r hd hrdrop

/-- Every row the disk sweep deletes started no later than every row
it leaves behind. -/
theorem dl_oldest (u : List Recording → Bool) (target : Nat) :
    ∀ (fuel freed : Nat) (st : RecState) (d : Recording),
      d ∈ (diskLoop u target fuel freed st).2 →
      ∀ r ∈ (diskLoop u target fuel freed st).1.rows,
        d.startedAt ≤ r.startedAt := by
  intro fuel
  induction fuel with
  | zero => intro freed st d hd; exact absurd hd (List.not_mem_nil d)
  | succ n ih =>
    intro freed st d hd r hr
    rw [diskLoop_succ] at hd hr
    split_ifs at hd hr with h1 h2 h3
    · exact absurd hd (List.not_mem_nil d)
    · exact absurd hd (List.not_mem_nil d)
    · exact batch_le_survivor st d r hd hr
    · rcases List.mem_append.mp hd with hdb | hdr
      · exact batch_le_survivor st d r hdb
          (dl_rows_subset u target n _ _ r hr)
      · exact ih _ _ d hdr r hr

/-- Every row either survives the disk sweep or appears (by id) in the
deleted-rows output. -/
theorem dl_removed_or_deleted (u : List Recording → Bool) (target : Nat) :
    ∀ (fuel freed : Nat) (st : RecState), ∀ r ∈ st.rows,
      r ∈ (diskLoop u target fuel freed st).1.rows ∨
      ∃ d ∈ (diskLoop u target fuel freed st).2, d.id = r.id := by
  intro fuel
  induction fuel with
  | zero => intro freed st r hr; exact Or.inl hr
  | succ n ih =>
    intro freed st r hr
    rw [diskLoop_succ]
    split_ifs with h1 h2 h3
    · exact Or.inl hr
    · exact Or.inl hr
    · by_cases hid : r.id ∈ ((sortByStartedAt st.rows).take
          diskBatchSize).map (·.id)
      · obtain ⟨dd, hdd, hddid⟩ := List.mem_map.mp hid
        exact Or.inr ⟨dd, hdd, hddid⟩
      · exact Or.inl ((mem_deleteRecs_rows _ _ _).mpr ⟨hr, hid⟩)
    · by_cases hid : r.id ∈ ((sortByStartedAt st.rows).take
          diskBatchSize).map (·.id)
      · obtain ⟨dd, hdd, hddid⟩ := List.mem_map.mp hid
        exact Or.inr ⟨dd, List.mem_append_left _ hdd, hddid⟩
      · rcases ih _ _ r ((mem_deleteRecs_rows _ _ _).mpr ⟨hr, hid⟩) with
          h | ⟨dd, hdd, hddid⟩
        · exact Or.inl h
        · exact Or.inr ⟨dd, List.mem_append_right _ hdd, hddid⟩

/-- A map that keeps ids and start times: rows of the image trace back
to originals. -/
theorem map_rows_inv (f : Recording → Recording)
    (hid : ∀ r, (f r).id = r.id)
    (hst : ∀ r, (f r).startedAt = r.startedAt)
    (l : List Recording) :
    ∀ r' ∈ l.map f, ∃ r ∈ l, r'.id = r.id ∧ r'.startedAt = r.startedAt := by
  intro r' hr'
  obtain ⟨r, hr, rfl⟩ := List.mem_map.mp hr'
  exact ⟨r, hr, hid r, hst r⟩

/-- A map that keeps ids, start times and paths: every original has an
image row with the same identity fields. -/
theorem map_rows_image (f : Recording → Recording)
    (hid : ∀ r, (f r).id = r.id)
    (hst : ∀ r, (f r).startedAt = r.startedAt)
    (hpa : ∀ r, (f r).path = r.path)
    (l : List Recording) :
    ∀ r ∈ l, ∃ r' ∈ l.map f,
      r'.id = r.id ∧ r'.startedAt = r.startedAt ∧ r'.path = r.path := by
  intro r hr
  exact ⟨f r, List.mem_map_of_mem f hr, hid r, hst r, hpa r⟩

/-- A map that keeps ids: every original has an image row with its
id. -/
theorem map_rows_image_id (f : Recording → Recording)
    (hid : ∀ r, (f r).id = r.id) (l : List Recording) :
    ∀ r ∈ l, ∃ r' ∈ l.map f, r'.id = r.id :=
  fun r hr => ⟨f r, List.mem_map_of_mem f hr, hid r⟩

/-- A map that keeps ids preserves uniqueness of ids. -/
theorem map_rows_nodup (f : Recording → Recording)
    (hid : ∀ r, (f r).id = r.id) (l : List Recording)
    (h : (l.map (·.id)).Nodup) : ((l.map f).map (·.id)).Nodup := by
  rw [List.map_map]
  have hfe : ((fun r : Recording => r.id) ∘ f) =
      fun r : Recording => r.id := funext fun r => hid r
  rw [hfe]
  exact h

/-- `markNextDeletionCandidates` only toggles delete flags: image rows
trace back to originals with the same id and start time. -/
theorem markNext_inv (t : Nat) (st : RecState) :
    ∀ r' ∈ (markNextDeletionCandidates t st).rows,
      ∃ r ∈ st.rows, r'.id = r.id ∧ r'.startedAt = r.startedAt := by
  simp only [markNextDeletionCandidates]
  split_ifs with h
  · intro r' hr'; exact ⟨r', hr', rfl, rfl⟩
  · exact map_rows_inv _ (fun r => by split <;> rfl)
      (fun r => by split <;> rfl) st.rows

/-- `markNextDeletionCandidates` drops no row: every original keeps a
row with its id. -/
theorem markNext_image (t : Nat) (st : RecState) :
    ∀ r ∈ st.rows, ∃ r' ∈ (markNextDeletionCandidates t st).rows,
      r'.id = r.id := by
  simp only [markNextDeletionCandidates]
  split_ifs with h
  · intro r hr; exact ⟨r, hr, rfl⟩
  · exact map_rows_image_id _ (fun r => by split <;> rfl) st.rows

/-- `markNextDeletionCandidates` never touches files. -/
theorem markNext_files (t : Nat) (st : RecState) :
    (markNextDeletionCandidates t st).files = st.files := by
  simp only [markNextDeletionCandidates]
  split_ifs <;> rfl

/-- `markExpiringRecordings` only toggles delete flags: every original
row keeps a row with its id, start time and path. -/
theorem markExpiring_image (d : Int) (e : Nat) (st : RecState) :
    ∀ r ∈ st.rows, ∃ r' ∈ (markExpiringRecordings d e st).rows,
      r'.id = r.id ∧ r'.startedAt = r.startedAt ∧ r'.path = r.path := by
  simp only [markExpiringRecordings]
  split_ifs with h
  · intro r hr; exact ⟨r, hr, rfl, rfl, rfl⟩
  · exact map_rows_image _ (fun r => by split <;> rfl)
      (fun r => by split <;> rfl) (fun r => by split <;> rfl) st.rows

/-- `markExpiringRecordings` preserves uniqueness of row ids. -/
theorem markExpiring_nodup (d : Int) (e : Nat) (st : RecState)
    (h : (st.rows.map (·.id)).Nodup) :
    ((markExpiringRecordings d e st).rows.map (·.id)).Nodup := by
  simp only [markExpiringRecordings]
  split_ifs with hd
  · exact h
  · exact map_rows_nodup _ (fun r => by split <;> rfl) st.rows h

/-- Every row remaining after `cleanupByDiskUsage` traces back to a
row that was already there, with the same id and start time. -/
theorem cdu_rows_inv (th : Bool) (u : List Recording → Bool) (o : Nat)
    (st : RecState) :
    ∀ r' ∈ (cleanupByDiskUsage th u o st).1.rows,
      ∃ rr ∈ st.rows, r'.id = rr.id ∧ r'.startedAt = rr.startedAt := by
  intro r' hr'
  simp only [cleanupByDiskUsage] at hr'
  split_ifs at hr' with h1 h2
  · exact ⟨r', hr', rfl, rfl⟩
  · exact ⟨r', hr', rfl, rfl⟩
  · obtain ⟨rr, hrr, hid, hst⟩ := markNext_inv _ _ r' hr'
    exact ⟨rr, dl_rows_subset u _ _ _ st rr hrr, hid, hst⟩

/-- `cleanupByDiskUsage` only ever removes files. -/
theorem cdu_files_subset (th : Bool) (u : List Recording → Bool) (o : Nat)
    (st : RecState) :
    ∀ f ∈ (cleanupByDiskUsage th u o st).1.files, f ∈ st.files := by
  intro f hf
  simp only [cleanupByDiskUsage] at hf
  split_ifs at hf with h1 h2
  · exact hf
  · exact hf
  · rw [markNext_files] at hf
    exact dl_files_subset u _ _ _ st f hf

/-- Every row either keeps a representative (by id) after
`cleanupByDiskUsage` or appears in the deleted output, in the latter
case being no younger than everything that remains. -/
theorem cdu_removed_or_deleted (th : Bool) (u : List Recording → Bool)
    (o : Nat) (st : RecState) :
    ∀ r ∈ st.rows,
      (∃ r' ∈ (cleanupByDiskUsage th u o st).1.rows, r'.id = r.id) ∨
      ∃ d ∈ (cleanupByDiskUsage th u o st).2, d.id = r.id ∧
        ∀ r' ∈ (cleanupByDiskUsage th u o st).1.rows,
          d.startedAt ≤ r'.startedAt := by
  intro r hr
  simp only [cleanupByDiskUsage]
  split_ifs with h1 h2
  · exact Or.inl ⟨r, hr, rfl⟩
  · exact Or.inl ⟨r, hr, rfl⟩
  · rcases dl_removed_or_deleted u (recentTarget o st.rows)
      (st.rows.length + 1) 0 st r hr with h | ⟨dd, hdd, hddid⟩
    · exact Or.inl (markNext_image _ _ r h)
    · refine Or.inr ⟨dd, hdd, hddid, ?_⟩
      intro r' hr'
      obtain ⟨rr, hrr, _, hstrr⟩ := markNext_inv _ _ r' hr'
      rw [hstrr]
      exact dl_oldest u (recentTarget o st.rows) (st.rows.length + 1) 0
        st dd hdd rr hrr

/-- C7: After one retention sweep with `RetainDays > 0` over a table
with unique row ids, the time-based sweep runs in batches of 100 and
deletes, together with its file, every row whose `started_at` is
before `now − retainDays` (no row with its id survives and its path is
gone from disk); and conservation holds: a row with
`started_at ≥ now − retainDays` disappears only if the disk-threshold
sweep selected it, in which case it appears in the sweep's
deleted-rows output and is no younger than every surviving row. -/
theorem C7_retention_sweep (retainDays : Int)
    (expiryCutoff cutoff oneHourAgo : Nat) (thresholdOK : Bool)
    (usageBelow : List Recording → Bool) (st : RecState)
    (hret : 0 < retainDays) (hnodup : (st.rows.map (·.id)).Nodup) :
    expiredBatchSize = 100 ∧
    (∀ r ∈ st.rows, r.startedAt < cutoff →
      (∀ r' ∈ (retentionSweep retainDays expiryCutoff cutoff oneHourAgo
        thresholdOK usageBelow st).1.rows, r'.id ≠ r.id) ∧
      r.path ∉ (retentionSweep retainDays expiryCutoff cutoff oneHourAgo
        thresholdOK usageBelow st).1.files) ∧
    (∀ r ∈ st.rows, cutoff ≤ r.startedAt →
      (∀ r' ∈ (retentionSweep retainDays expiryCutoff cutoff oneHourAgo
        thresholdOK usageBelow st).1.rows, r'.id ≠ r.id) →
      ∃ d ∈ (retentionSweep retainDays expiryCutoff cutoff oneHourAgo
        thresholdOK usageBelow st).2, d.id = r.id ∧
        ∀ r' ∈ (retentionSweep retainDays expiryCutoff cutoff oneHourAgo
          thresholdOK usageBelow st).1.rows,
          d.startedAt ≤ r'.startedAt) := by
  unfold retentionSweep
  have hM := markExpiring_image retainDays expiryCutoff st
  have hMnodup : ((markExpiringRecordings retainDays expiryCutoff
      st).rows.map (·.id)).Nodup :=
    markExpiring_nodup retainDays expiryCutoff st hnodup
  have hEdef : cleanupExpiredRecordings retainDays cutoff
      (markExpiringRecordings retainDays expiryCutoff st) =
      batchDeleteGo (fun r => decide (r.startedAt < cutoff))
        ((markExpiringRecordings retainDays expiryCutoff st).rows.length
          + 1)
        (markExpiringRecordings retainDays expiryCutoff st) := by
    unfold cleanupExpiredRecordings batchDeleteRecordings
    rw [if_neg (by omega)]
  refine ⟨rfl, ?_, ?_⟩
  · intro r hr hrc
    obtain ⟨r₁, hr₁, hid₁, hst₁, hpa₁⟩ := hM r hr
    have hgone := bdlGo_gone (fun r => decide (r.startedAt < cutoff))
      ((markExpiringRecordings retainDays expiryCutoff st).rows.length
        + 1)
      (markExpiringRecordings retainDays expiryCutoff st)
      (le_trans (List.length_filter_le _ _) (Nat.le_succ _))
      hMnodup r₁ hr₁
      (by simp only [hst₁]; exact decide_eq_true hrc)
    constructor
    · intro r' hr'
      obtain ⟨rr, hrr, hidrr, _⟩ := cdu_rows_inv thresholdOK usageBelow
        oneHourAgo _ r' hr'
      rw [hEdef] at hrr
      have hne := hgone.1 rr hrr
      intro heq
      apply hne
      rw [← hidrr, heq, hid₁]
    · intro hpath
      have hf := cdu_files_subset thresholdOK usageBelow oneHourAgo _
        r.path hpath
      rw [hEdef] at hf
      apply hgone.2
      rw [hpa₁]
      exact hf
  · intro r hr hrc habsent
    obtain ⟨r₁, hr₁, hid₁, hst₁, _⟩ := hM r hr
    have hframe := bdlGo_frame (fun r => decide (r.startedAt < cutoff))
      ((markExpiringRecordings retainDays expiryCutoff st).rows.length
        + 1)
      (markExpiringRecordings retainDays expiryCutoff st)
      hMnodup r₁ hr₁
      (by simp only [hst₁]; exact decide_eq_false (by omega))
    rw [← hEdef] at hframe
    rcases cdu_removed_or_deleted thresholdOK usageBelow oneHourAgo _
      r₁ hframe with ⟨r', hr', hid'⟩ | ⟨d, hd, hdid, hold⟩
    · exact absurd (by rw [hid', hid₁]) (habsent r' hr')
    · exact ⟨d, hd, by rw [hdid, hid₁], hold⟩

/-- Witness for C7 at a concrete two-row table: with retainDays 1 and
cutoff 50, the row started at 5 is fully removed (no surviving row has
its id and its file is gone); hypotheses hold by computation. -/
theorem C7_retention_sweep_witness :
    (0 : Int) < 1 ∧
    (([⟨1, 5, 0, 10, "a", false⟩, ⟨2, 100, 0, 10, "b", false⟩] :
      List Recording).map (·.id)).Nodup ∧
    (∀ r' ∈ (retentionSweep 1 50 50 0 false (fun _ => true)
        ⟨[⟨1, 5, 0, 10, "a", false⟩, ⟨2, 100, 0, 10, "b", false⟩],
         ["a", "b"]⟩).1.rows, r'.id ≠ 1) ∧
    "a" ∉ (retentionSweep 1 50 50 0 false (fun _ => true)
        ⟨[⟨1, 5, 0, 10, "a", false⟩, ⟨2, 100, 0, 10, "b", false⟩],
         ["a", "b"]⟩).1.files := by
  have h := (C7_retention_sweep 1 50 50 0 false (fun _ => true)
    ⟨[⟨1, 5, 0, 10, "a", false⟩, ⟨2, 100, 0, 10, "b", false⟩],
     ["a", "b"]⟩ (by decide) (by decide)).2.1
    ⟨1, 5, 0, 10, "a", false⟩ (by decide) (by decide)
  exact ⟨by decide, by decide, h.1, h.2⟩

end Owl
